import Mathlib

/-!
TestAgentd platform layer: launch, child registry, exit waiter, self-upgrade.

A shallow embedding of `testbot/src/testagentd/platform_unix.c` and
`platform_windows.c`.  Each C function becomes a Lean function on an explicit
agent state; every system call whose outcome the code cannot decide by itself
(`open`, `fork`, `select`, `recv`, `rename`, `CreateProcessA`, ...) takes its
outcome from an environment record, so the theorems hold for every behaviour of
the operating system, and a concrete environment pins one behaviour down.
-/

set_option autoImplicit false
set_option linter.unusedVariables false

namespace TestAgentd

/-! ## Declarations of platform.h and list.h (headers that the two sources include) -/

/-- Modelled from the spec: the status classes that `set_status` records
(platform.h is not part of the sources); the spec keeps the fatal class apart
from the ordinary error class. -/
inductive status_t where
  | ST_OK
  | ST_ERROR
  | ST_FATAL
  deriving DecidableEq, Repr

/-- Modelled from the spec: the no-track launch flag of platform.h, one bit of
the `flags` word. -/
def RUN_DNT : Nat := 1

/-- Modelled from the spec: the don't-truncate-stdout launch flag of platform.h. -/
def RUN_DNTRUNC_OUT : Nat := 2

/-- Modelled from the spec: the don't-truncate-stderr launch flag of platform.h. -/
def RUN_DNTRUNC_ERR : Nat := 4

/-- Modelled from the spec: the `timeout` value of platform.h that stands for
"no timeout". -/
def RUN_NOTIMEOUT : Nat := 0xFFFFFFFF

/-- Conversion of a C `int`/`pid_t` to `uint64_t`. -/
def to_uint64 (x : Int) : Nat := (x % 2 ^ 64).toNat

/-- Conversion of a C `int` to `uint32_t`. -/
def to_uint32 (x : Int) : Nat := (x % 2 ^ 32).toNat

/-- Conversion of a 64-bit value to the signed `long long` (and to the 64-bit
`time_t`), two's complement. -/
def to_int64 (x : Int) : Int := (x + 2 ^ 63) % 2 ^ 64 - 2 ^ 63

/-- The C library function `llabs` on `long long`; at `LLONG_MIN`, where C leaves
the result undefined, the value wraps to `LLONG_MIN` as the usual
implementations do. -/
def llabs (x : Int) : Int := to_int64 (if x < 0 then -x else x)

/-- The text both platforms pass to `set_status` when the pid lookup fails. -/
def not_child_msg (pid : Nat) : String :=
  "the " ++ toString pid ++ " process does not exist or is not a child process"

/-- The descriptor or handle value a successful `open`, `pipe`, `CreateFile` or
`CreateProcessA` hands out: the lowest number that is not open already. -/
def lowest_free (used : List Nat) : Nat :=
  ((List.range (used.length + 1)).find? (fun n => !used.contains n)).getD used.length

namespace Unix

/-! ## platform_unix.c -/

/-- The `struct child_t` of platform_unix.c (the list linkage is the position in
the registry list). -/
structure child_t where
  pid : Nat
  reaped : Bool
  status : Nat
  deriving DecidableEq, Repr

/-- An inode: what `stat` reports about it, and its bytes. -/
structure file_t where
  st_dev : Nat
  st_ino : Nat
  content : List Nat
  deriving DecidableEq, Repr

/-- The state of the agent process that platform_unix.c reads and writes: the
static `children` list (head first), the open file descriptors, the directory
entries the upgrade touches, and what `set_status` recorded last. -/
structure agent where
  children : List child_t
  fds : List Nat
  files : List (String × file_t)
  status : status_t
  status_msg : String
  deriving DecidableEq, Repr

/-- Modelled from the spec: `set_status` of the missing testagentd.c records the
status class and the human-readable cause. -/
def set_status (a : agent) (s : status_t) (msg : String) : agent :=
  { a with status := s, status_msg := msg }

/-- Modelled from the spec: `LIST_FOR_EACH_ENTRY` of the missing list.h with the
`child->pid == pid` break, as used by `platform_wait` and `platform_rmchildproc`:
the position of the first entry with that pid, `none` when the scan runs off
the list. -/
def find_child (pid : Nat) : List child_t → Option Nat
  | [] => none
  | c :: cs => if c.pid = pid then some 0 else (find_child pid cs).map (fun k => k + 1)

/-- Modelled from the spec: `list_remove` of the missing list.h, unlinking the
entry at one position. -/
def list_remove (cs : List child_t) (idx : Nat) : List child_t := cs.eraseIdx idx

/-- The loop of `reaper`: the first entry with the pid gets the status and the
reaped flag, then `break`. -/
def reaper_scan (pid : Int) (status : Int) : List child_t → List child_t
  | [] => []
  | c :: cs =>
    if c.pid = to_uint64 pid then
      { c with status := to_uint32 status, reaped := true } :: cs
    else c :: reaper_scan pid status cs

/-- The SIGCHLD handler `reaper`; `pid` and `status` are what its `wait(&status)`
call returned. -/
def reaper (pid : Int) (status : Int) (a : agent) : agent :=
  { a with children := reaper_scan pid status a.children }

/-- The flag bits of `open` (fcntl.h) that matter for `ofl`; the access mode
`O_RDONLY` is the value 0, the absence of `O_WRONLY` and `O_RDWR`. -/
inductive oflag where
  | O_APPEND
  | O_CREAT
  | O_TRUNC
  | O_WRONLY
  | O_RDWR
  deriving DecidableEq, Repr

/-- Whether a flag word asks `open` for write access: its access mode is
`O_WRONLY` or `O_RDWR`. -/
def write_access (ofl : List oflag) : Bool :=
  ofl.contains oflag.O_WRONLY || ofl.contains oflag.O_RDWR

/-- What the operating system answers during one `platform_run` call. -/
structure run_env where
  /-- whether `open(path, ofl, 0666)` succeeds -/
  open_ok : String → List oflag → Bool
  /-- the value `fork()` returns in this process -/
  fork : Int
  /-- the bytes `malloc` left in the `status` field, which the code does not set -/
  malloc_status : Nat
  /-- the text of `strerror(errno)` at the failure -/
  strerror : String

/-- The system call `open`: -1 on failure, else the lowest free descriptor. -/
def sys_open (ok : Bool) (a : agent) : Int × agent :=
  if ok then ((lowest_free a.fds : Nat), { a with fds := lowest_free a.fds :: a.fds })
  else (-1, a)

/-- The system call `close`. -/
def sys_close (a : agent) (fd : Int) : agent :=
  { a with fds := a.fds.filter (fun x => decide ((x : Int) ≠ fd)) }

/-- The `switch (i)` of `platform_run` that computes `ofl`. -/
def open_flags (i : Nat) (flags : Nat) : List oflag :=
  match i with
  | 0 => []
  | 1 => [oflag.O_APPEND, oflag.O_CREAT] ++
      (if flags &&& RUN_DNTRUNC_OUT ≠ 0 then [] else [oflag.O_TRUNC])
  | 2 => [oflag.O_APPEND, oflag.O_CREAT] ++
      (if flags &&& RUN_DNTRUNC_ERR ≠ 0 then [] else [oflag.O_TRUNC])
  | _ => []

/-- The clean-up loop `while (i > 0) { if (fds[i] != -1) close(fds[i]); i--; }`. -/
def close_back (fds : List Int) : Nat → agent → agent
  | 0, a => a
  | i + 1, a =>
    close_back fds i
      (if fds.getD (i + 1) (-1) ≠ -1 then sys_close a (fds.getD (i + 1) (-1)) else a)

/-- The loop `for (i = 0; i < 3; i++)` of `platform_run` that opens the redirect
targets, started at `i` with `n` rounds to go: `error` is the `return 0` inside
the loop, `ok` carries `fds` to the code after the loop. -/
def open_redirects (env : run_env) (flags : Nat) (redirects : List String) :
    Nat → Nat → List Int → agent → Except agent (List Int × agent)
  | 0, _, fds, a => .ok (fds, a)
  | n + 1, i, fds, a =>
    if redirects.getD i "" = "" then open_redirects env flags redirects n (i + 1) fds a
    else
      let r := sys_open (env.open_ok (redirects.getD i "") (open_flags i flags)) a
      if r.1 < 0 then
        .error (close_back (fds.set i r.1) i
          (set_status r.2 status_t.ST_ERROR
            ("unable to open '" ++ redirects.getD i "" ++ "' for " ++
              (if i ≠ 0 then "writing" else "reading") ++ ": " ++ env.strerror)))
      else open_redirects env flags redirects n (i + 1) (fds.set i r.1) r.2

/-- The final loop `for (i = 0; i < 3; i++) if (fds[i] != -1) close(fds[i]);`,
started at `i` with `n` rounds to go. -/
def close_fds (fds : List Int) : Nat → Nat → agent → agent
  | 0, _, a => a
  | n + 1, i, a =>
    close_fds fds n (i + 1)
      (if fds.getD i (-1) ≠ -1 then sys_close a (fds.getD i (-1)) else a)

/-- The function `platform_run` as the calling process sees it: the returned
`uint64_t` and the new state.  `none` is the forked child (`pid == 0`), which
goes on to `execvp` or `exit(1)` and never returns from the call. -/
def platform_run (env : run_env) (argv : List String) (flags : Nat)
    (redirects : List String) (a : agent) : Option (Nat × agent) :=
  match open_redirects env flags redirects 3 0 [-1, -1, -1] a with
  | .error a1 => some (0, a1)
  | .ok (fds, a1) =>
    if env.fork = 0 then none
    else if env.fork < 0 then
      some (to_uint64 0,
        close_fds fds 3 0 (set_status a1 status_t.ST_ERROR ("could not fork: " ++ env.strerror)))
    else if flags &&& RUN_DNT = 0 then
      some (to_uint64 env.fork,
        close_fds fds 3 0
          { a1 with children := ⟨to_uint64 env.fork, false, env.malloc_status⟩ :: a1.children })
    else some (to_uint64 env.fork, close_fds fds 3 0 a1)

/-- What one pass through the body of the `while (!child->reaped)` loop of
`platform_wait` gets from the operating system. -/
structure select_t where
  /-- the results of `wait(&status)` in the `reaper` runs that interrupt this pass -/
  sigchld : List (Int × Int)
  /-- the value `select` returns -/
  ready : Int
  /-- the value of `FD_ISSET(client, &rfds)` after `select` -/
  isset : Bool
  /-- the value of `recv(client, &buffer, 1, MSG_PEEK | MSG_DONTWAIT)` -/
  recv : Int

/-- What the operating system answers during one `platform_wait` call. -/
structure wait_env where
  /-- the value of `time(NULL)` when the deadline is computed -/
  time0 : Int
  /-- the value of `time(NULL)` in pass `n` of the loop -/
  now : Nat → Int
  /-- the outcome of `select` in pass `n`, given the timeout `tv.tv_sec` passed to
  it (`none` for the NULL pointer) -/
  select : Nat → Option Int → select_t

/-- The signal handler runs for each delivered SIGCHLD, in order. -/
def deliver (l : List (Int × Int)) (a : agent) : agent :=
  l.foldl (fun b p => reaper p.1 p.2 b) a

/-- The function `platform_run` in the schedule where SIGCHLD is delivered after
`fork()` has returned in the parent (line 105) and before `list_add_head`
(line 133).  The code does not mask the signal there, so `reaper` runs on the
registry that does not hold the new entry yet; `early` lists the results of
`wait(&status)` in those runs.  With `early = []` this is `platform_run`. -/
def platform_run_interrupted (env : run_env) (early : List (Int × Int)) (argv : List String)
    (flags : Nat) (redirects : List String) (a : agent) : Option (Nat × agent) :=
  match open_redirects env flags redirects 3 0 [-1, -1, -1] a with
  | .error a1 => some (0, a1)
  | .ok (fds, a1) =>
    if env.fork = 0 then none
    else
      let a2 := deliver early a1
      if env.fork < 0 then
        some (to_uint64 0,
          close_fds fds 3 0 (set_status a2 status_t.ST_ERROR ("could not fork: " ++ env.strerror)))
      else if flags &&& RUN_DNT = 0 then
        some (to_uint64 env.fork,
          close_fds fds 3 0
            { a2 with children := ⟨to_uint64 env.fork, false, env.malloc_status⟩ :: a2.children })
      else some (to_uint64 env.fork, close_fds fds 3 0 a2)

/-- The loop `while (!child->reaped)` of `platform_wait` and the two statements
after it; `child` is the entry at position `idx`, `n` counts the passes made so
far, and the first argument bounds the passes still allowed (`none`: the bound is
used up with the loop still running).  The result is the returned `int`, the
value stored to `*childstatus` if any, and the new state. -/
def wait_loop (env : wait_env) (idx : Nat) (timeout : Nat) (deadline : Int) :
    Nat → Nat → agent → Option (Nat × Option Nat × agent)
  | 0, _, a =>
    match a.children[idx]? with
    | none => none
    | some child => if child.reaped then some (1, some child.status, a) else none
  | fuel + 1, n, a =>
    match a.children[idx]? with
    | none => none
    | some child =>
      if child.reaped then some (1, some child.status, a)
      else
        let tv : Option Int :=
          if timeout ≠ RUN_NOTIMEOUT then some (max (deadline - env.now n) 0) else none
        let s := env.select n tv
        let a1 := deliver s.sigchld a
        if s.ready = 0 then
          some (0, none,
            set_status a1 status_t.ST_ERROR "timed out waiting for the child process")
        else if s.ready = 1 ∧ s.isset = true ∧ s.recv ≤ 0 then
          some (0, none, set_status a1 status_t.ST_FATAL "connection closed")
        else wait_loop env idx timeout deadline fuel (n + 1) a1

/-- The function `platform_wait`; `fuel` bounds the number of passes through the
loop body. -/
def platform_wait (env : wait_env) (fuel : Nat) (client : Nat) (pid : Nat) (timeout : Nat)
    (a : agent) : Option (Nat × Option Nat × agent) :=
  match find_child pid a.children with
  | none => some (0, none, set_status a status_t.ST_ERROR (not_child_msg pid))
  | some idx =>
    wait_loop env idx timeout
      (if timeout ≠ RUN_NOTIMEOUT then env.time0 + (timeout : Int) else 0) fuel 0 a

/-- The function `platform_rmchildproc`: the returned `int` and the new state. -/
def platform_rmchildproc (client : Nat) (pid : Nat) (a : agent) : Nat × agent :=
  match find_child pid a.children with
  | none => (0, set_status a status_t.ST_ERROR (not_child_msg pid))
  | some idx => (1, { a with children := list_remove a.children idx })

/-- What the operating system answers during one `platform_settime` call. -/
structure settime_env where
  /-- whether `settimeofday` succeeds -/
  settimeofday_ok : Bool
  /-- the text of `strerror(errno)` at the failure -/
  strerror : String

/-- The function `platform_settime`; `clock` is the system clock in seconds, the
`tv_sec` that `gettimeofday` reads and `settimeofday` sets.  The result is the
returned `int`, the clock afterwards and the new state.  `tv.tv_sec - epoch` is
computed in `uint64_t`, handed to `llabs` as a `long long`, and the result is
stored to the `uint64_t offset`. -/
def platform_settime (env : settime_env) (epoch : Nat) (leeway : Nat) (clock : Int)
    (a : agent) : Nat × Int × agent :=
  if leeway ≠ 0 ∧
      to_uint64 (llabs (to_int64 (to_uint64 (clock - (epoch : Int))))) ≤ leeway then
    (2, clock, a)
  else if env.settimeofday_ok then (1, to_int64 (epoch : Int), a)
  else (0, clock, set_status a status_t.ST_ERROR ("failed to set the time: " ++ env.strerror))

/-- What the operating system answers during one `platform_upgrade` call. -/
structure upgrade_env where
  /-- whether the system lets `rename(old, new)` through when `old` exists -/
  rename_ok : String → String → Bool
  /-- whether `pipe` succeeds -/
  pipe_ok : Bool
  /-- the value `fork()` returns in this process -/
  fork : Int
  /-- whether `execvp` replaces the process image -/
  execvp_ok : Bool
  /-- the text of `strerror(errno)` at the failure -/
  strerror : String

/-- The system call `stat`: the inode behind a path, `none` when it fails. -/
def sys_stat (a : agent) (path : String) : Option file_t := a.files.lookup path

/-- The system call `rename`: 0 and the entry moved (replacing what `new` held),
or -1 and nothing changed. -/
def sys_rename (ok : Bool) (a : agent) (old new : String) : Int × agent :=
  match a.files.lookup old with
  | none => (-1, a)
  | some f =>
    if ok then
      (0, { a with files := (new, f) :: a.files.filter (fun e => decide (e.1 ≠ old ∧ e.1 ≠ new)) })
    else (-1, a)

/-- The system call `unlink`. -/
def sys_unlink (a : agent) (path : String) : agent :=
  { a with files := a.files.filter (fun e => decide (e.1 ≠ path)) }

/-- The system call `pipe`: the return value, `pipefds[0]`, `pipefds[1]`, and the
new state. -/
def sys_pipe (ok : Bool) (a : agent) : Int × Int × Int × agent :=
  if ok then
    (0, (lowest_free a.fds : Nat), (lowest_free (lowest_free a.fds :: a.fds) : Nat),
      { a with fds := lowest_free (lowest_free a.fds :: a.fds) :: lowest_free a.fds :: a.fds })
  else (-1, -1, -1, a)

/-- The constant `OLDSERVER` of `platform_upgrade`. -/
def OLDSERVER : String := "testagentd.old"

/-- The statement `if (oldserver) rename(oldserver, current_argv0);`. -/
def restore_oldserver (env : upgrade_env) (current_argv0 : String)
    (oldserver : Option String) (a : agent) : agent :=
  match oldserver with
  | none => a
  | some o => (sys_rename (env.rename_ok o current_argv0) a o current_argv0).2

/-- The part of `platform_upgrade` from `pipe(pipefds)` to the end.  `none` is
the successful `execvp`, which never returns. -/
def upgrade_spawn (env : upgrade_env) (current_argv0 : String) (argv : List String)
    (oldserver : Option String) (a : agent) : Option (Nat × agent) :=
  let p := sys_pipe env.pipe_ok a
  if p.1 ≠ 0 then
    some (0, restore_oldserver env current_argv0 oldserver
      (set_status p.2.2.2 status_t.ST_ERROR
        ("could not synchronize with the new process: " ++ env.strerror)))
  else if env.fork < 0 then
    some (0, restore_oldserver env current_argv0 oldserver
      (sys_close (sys_close
        (set_status p.2.2.2 status_t.ST_ERROR
          ("unable to start the new server: " ++ env.strerror)) p.2.1) p.2.2.1))
  else
    let a1 := match oldserver with
      | none => p.2.2.2
      | some o => sys_unlink p.2.2.2 o
    if env.fork = 0 then some (1, sys_close a1 p.2.1)
    else if env.execvp_ok then none
    else some (1, sys_close (sys_close a1 p.2.2.1) p.2.1)

/-- The function `platform_upgrade`: the returned `int` and the new state, `none`
when the call ends in a successful `execvp`. -/
def platform_upgrade (env : upgrade_env) (current_argv0 : String) (argc : Nat)
    (argv : List String) (a : agent) : Option (Nat × agent) :=
  match sys_stat a current_argv0 with
  | none =>
    some (0, set_status a status_t.ST_ERROR
      ("could not stat '" ++ current_argv0 ++ "': " ++ env.strerror))
  | some stat_current =>
    match sys_stat a (argv.getD 0 "") with
    | none =>
      some (0, set_status a status_t.ST_ERROR
        ("could not stat '" ++ argv.getD 0 "" ++ "': " ++ env.strerror))
    | some stat_argv0 =>
      if stat_current.st_dev ≠ stat_argv0.st_dev ∨ stat_current.st_ino ≠ stat_argv0.st_ino then
        let r1 := sys_rename (env.rename_ok current_argv0 OLDSERVER) a current_argv0 OLDSERVER
        if r1.1 ≠ 0 then
          some (0, set_status r1.2 status_t.ST_ERROR
            ("unable to move the current server file out of the way: " ++ env.strerror))
        else
          let r2 := sys_rename (env.rename_ok (argv.getD 0 "") current_argv0) r1.2
            (argv.getD 0 "") current_argv0
          if r2.1 ≠ 0 then
            some (0, (sys_rename (env.rename_ok OLDSERVER (argv.getD 0 ""))
              (set_status r2.2 status_t.ST_ERROR
                ("unable to move the currentnew server file into place: " ++ env.strerror))
              OLDSERVER (argv.getD 0 "")).2)
          else upgrade_spawn env current_argv0 argv (some OLDSERVER) r2.2
      else upgrade_spawn env current_argv0 argv none a

/-- The "NotFound" failure of `platform_wait` and `platform_rmchildproc`: the
value 0 is returned with the status ST_ERROR and the "does not exist or is not a
child process" text recorded. -/
def not_found (pid : Nat) (ret : Nat) (a : agent) : Prop :=
  ret = 0 ∧ a.status = status_t.ST_ERROR ∧ a.status_msg = not_child_msg pid

/-- The number of registry entries that carry a pid. -/
def entries_with (pid : Nat) (cs : List child_t) : Nat :=
  (cs.filter (fun c => decide (c.pid = pid))).length

/-- One step in the life of the registry: a Launch, an exit notification, or a
Remove.  (A Wait writes the registry only through the exit notifications that
are delivered while it blocks, which are steps of their own.) -/
inductive event where
  | launch (env : run_env) (argv : List String) (flags : Nat) (redirects : List String)
  | exit_notification (pid : Int) (status : Int)
  | remove (client : Nat) (pid : Nat)

/-- Whether a step is a Launch. -/
def event.is_launch : event → Bool
  | event.launch _ _ _ _ => true
  | _ => false

/-- The state after one step. -/
def step (e : event) (a : agent) : agent :=
  match e with
  | event.launch env argv flags redirects =>
    match platform_run env argv flags redirects a with
    | some r => r.2
    | none => a
  | event.exit_notification pid status => reaper pid status a
  | event.remove client pid => (platform_rmchildproc client pid a).2

/-- The state after a sequence of steps, first step first. -/
def run_events (es : List event) (a : agent) : agent :=
  es.foldl (fun b e => step e b) a

/-! ### Concrete inputs -/

/-- The agent right after start: empty registry, the three standard streams
open, nothing recorded. -/
def startup : agent := ⟨[], [0, 1, 2], [], status_t.ST_OK, ""⟩

/-- An operating system in which every `open` succeeds and `fork` returns `pid`. -/
def fork_gives (pid : Int) : run_env := ⟨fun _ _ => true, pid, 0, ""⟩

/-- The registry after child 5 was launched and reaped, its entry not removed. -/
def stale_entry : agent :=
  run_events
    [event.launch (fork_gives 5) ["first"] 0 ["", "", ""], event.exit_notification 5 0]
    startup

/-- The registry after child 5 was launched and reaped, its entry not removed,
and `fork` handed the free pid 5 to the next launch. -/
def pid_reused : agent :=
  run_events
    [event.launch (fork_gives 5) ["first"] 0 ["", "", ""], event.exit_notification 5 0,
      event.launch (fork_gives 5) ["second"] 0 ["", "", ""]]
    startup

/-- An operating system in which `in.txt` can be opened and nothing else can, and
`fork` would return 7. -/
def only_input_opens : run_env :=
  ⟨fun path _ => path == "in.txt", 7, 0, "No such file or directory"⟩

/-- An operating system in which `out.log` is a file the agent may write but not
read (mode 0200): `open` succeeds on it exactly when write access is asked for
without read access; `fork` would return 7. -/
def write_only_log : run_env :=
  ⟨fun path ofl => path == "out.log" && ofl.contains oflag.O_WRONLY, 7, 0,
    "Permission denied"⟩

/-- An agent that tracks the running child 5 and talks to its client on
descriptor 3. -/
def one_child : agent := ⟨[⟨5, false, 0⟩], [3, 0, 1, 2], [], status_t.ST_OK, ""⟩

/-- A connection with one unread byte pending: whatever timeout `select` is given
it reports the socket readable at once, and the peek returns the byte; `now` is
the clock. -/
def pending_data (now : Nat → Int) : wait_env :=
  ⟨1000, now, fun _ _ => ⟨[], 1, true, 1⟩⟩

/-- A quiet connection and a child that keeps running: `select` returns 0 when
its timeout is over, and no SIGCHLD arrives. -/
def quiet : wait_env :=
  ⟨1000, fun _ => 1010, fun _ _ => ⟨[], 0, false, 0⟩⟩

/-- A connection the client has closed: `select` reports the socket readable and
the peek returns end-of-stream. -/
def peer_closed : wait_env :=
  ⟨1000, fun _ => 1000, fun _ _ => ⟨[], 1, true, 0⟩⟩

/-- An agent with an empty registry that talks to its client on descriptor 3. -/
def connected : agent := ⟨[], [3, 0, 1, 2], [], status_t.ST_OK, ""⟩

/-- A connection during which no SIGCHLD arrives; the clock and every answer of
`select` and `recv` are left open. -/
def no_sigchld (time0 : Int) (now : Nat → Int) (ready : Nat → Option Int → Int)
    (isset : Nat → Option Int → Bool) (recv : Nat → Option Int → Int) : wait_env :=
  ⟨time0, now, fun n tv => ⟨[], ready n tv, isset n tv, recv n tv⟩⟩

/-- A quiet connection during which the child `pid` exits: the SIGCHLD interrupts
the first `select`, which returns -1 (EINTR) after `reaper` got `(pid, status)`
from `wait`; every later `select` returns 0 when its timeout is over. -/
def child_exits (pid status : Int) : wait_env :=
  ⟨1000, fun n => 1000 + 5 * (n : Int),
    fun n _ => if n = 0 then ⟨[(pid, status)], -1, false, 0⟩ else ⟨[], 0, false, 0⟩⟩

/-- An agent that tracks the running children 5 and 6 and talks to its client on
descriptor 3. -/
def two_children : agent :=
  ⟨[⟨5, false, 0⟩, ⟨6, false, 0⟩], [3, 0, 1, 2], [], status_t.ST_OK, ""⟩

/-- A quiet connection during which child 6 exits with code 1 (wait status 256):
its SIGCHLD interrupts the first `select`, which returns -1 (EINTR) after
`reaper` ran; the second `select` returns 0 when its timeout is over. -/
def other_child_exits : wait_env :=
  ⟨1000, fun n => 1000 + 5 * (n : Int),
    fun n _ => if n = 0 then ⟨[(6, 256)], -1, false, 0⟩ else ⟨[], 0, false, 0⟩⟩

/-- A directory with the running server and a new build of it, two inodes on
one file system. -/
def two_servers : agent :=
  ⟨[], [0, 1, 2],
    [("testagentd", ⟨1, 10, [1]⟩), ("new/testagentd", ⟨1, 11, [2]⟩)],
    status_t.ST_OK, ""⟩

/-- An operating system that refuses to move the new build away (no write
permission on its directory entry at that moment) and lets every other rename
through. -/
def install_refused : upgrade_env :=
  ⟨fun old _ => old != "new/testagentd", true, 9, true, "Permission denied"⟩

/-- The running server, and a new build that lies on another file system. -/
def servers_on_two_devices : agent :=
  ⟨[], [0, 1, 2],
    [("testagentd", ⟨1, 10, [1]⟩), ("/mnt/new/testagentd", ⟨2, 11, [2]⟩)],
    status_t.ST_OK, ""⟩

/-- An operating system that refuses every rename from or to the other file
system (EXDEV) and lets every other rename through. -/
def cross_device : upgrade_env :=
  ⟨fun old new => old != "/mnt/new/testagentd" && new != "/mnt/new/testagentd",
    true, 9, true, "Invalid cross-device link"⟩

/-- An operating system that lets every rename through and has no descriptors
left for the pipe. -/
def pipe_fails : upgrade_env := ⟨fun _ _ => true, false, 9, true, "Too many open files"⟩

/-- An operating system that lets every rename through and creates the pipe, but
cannot fork. -/
def fork_fails : upgrade_env :=
  ⟨fun _ _ => true, true, -1, true, "Resource temporarily unavailable"⟩

end Unix

namespace Windows

/-! ## platform_windows.c -/

/-- The `struct child_t` of platform_windows.c. -/
structure child_t where
  pid : Nat
  handle : Int
  deriving DecidableEq, Repr

/-- The state of the agent process that platform_windows.c reads and writes: the
static `children` list (head first), the open handles (the standard handles of
the agent among them), the files the upgrade touches, and what `set_status`
recorded last. -/
structure agent where
  children : List child_t
  handles : List Nat
  files : List (String × List Nat)
  status : status_t
  status_msg : String
  deriving DecidableEq, Repr

/-- Modelled from the spec: `set_status` of the missing testagentd.c records the
status class and the human-readable cause. -/
def set_status (a : agent) (s : status_t) (msg : String) : agent :=
  { a with status := s, status_msg := msg }

/-- Modelled from the spec: `LIST_FOR_EACH_ENTRY` of the missing list.h with the
`child->pid == pid` break: the position of the first entry with that pid, `none`
when the scan reaches the end of the list. -/
def find_child (pid : Nat) : List child_t → Option Nat
  | [] => none
  | c :: cs => if c.pid = pid then some 0 else (find_child pid cs).map (fun k => k + 1)

/-- Modelled from the spec: `list_remove` of the missing list.h, unlinking the
entry at one position. -/
def list_remove (cs : List child_t) (idx : Nat) : List child_t := cs.eraseIdx idx

/-- The value `INVALID_HANDLE_VALUE`. -/
def INVALID_HANDLE_VALUE : Int := -1

/-- The `access` argument `platform_run` passes to `CreateFile`. -/
inductive access_t where
  | GENERIC_READ
  | FILE_APPEND_DATA
  deriving DecidableEq, Repr

/-- The `creation` argument `platform_run` passes to `CreateFile`. -/
inductive creation_t where
  | OPEN_EXISTING
  | OPEN_ALWAYS
  | CREATE_ALWAYS
  deriving DecidableEq, Repr

/-- What the operating system answers during one `platform_run` call. -/
structure run_env where
  /-- whether `malloc(cmdsize)` succeeds -/
  malloc_ok : Bool
  /-- the value of `GetStdHandle(stdhandles[i])` -/
  std_handle : Nat → Int
  /-- whether `CreateFile` succeeds for this path, access and creation mode -/
  create_file_ok : String → access_t → creation_t → Bool
  /-- the process id in `pi.dwProcessId` when `CreateProcessA` succeeds, `none`
  when it fails -/
  create_process : String → Option Nat
  /-- the value of `GetLastError()` at the failure -/
  last_error : Nat
  /-- the text of `strerror(errno)` at the failure -/
  strerror : String

/-- The double quote character. -/
def QUOTE : Char := Char.ofNat 34

/-- The backslash character. -/
def BACKSLASH : Char := Char.ofNat 92

/-- The space character. -/
def SPACE : Char := Char.ofNat 32

/-- The tab character. -/
def TAB : Char := Char.ofNat 9

/-- The first loop of `platform_run` for one argument: the bytes it adds to
`cmdsize`. -/
def run_arg_size (s : List Char) : Nat :=
  (s.map (fun c => if c = QUOTE then 2 else 1)).sum + 3

/-- The value of `cmdsize` that `platform_run` passes to `malloc`. -/
def run_cmdsize (argv : List String) : Nat :=
  (argv.map (fun s => run_arg_size s.data)).sum

/-- The inner `while (*s)` of the second loop of `platform_run`: the characters
written for the body of one argument. -/
def run_escape : List Char → List Char
  | [] => []
  | c :: s => if c = QUOTE then BACKSLASH :: c :: run_escape s else c :: run_escape s

/-- The second loop of `platform_run`: every character stored through `d`. -/
def run_written : List String → List Char
  | [] => []
  | s :: argv => QUOTE :: run_escape s.data ++ [QUOTE, SPACE] ++ run_written argv

/-- The command line `platform_run` hands to `CreateProcessA`: what was written,
with the last separator overwritten by the terminating NUL (`*(d-1) = 0`). -/
def run_cmdline (argv : List String) : String :=
  String.mk (run_written argv).dropLast

/-- The call `CreateFile`: `INVALID_HANDLE_VALUE` on failure, else a new handle. -/
def create_file (ok : Bool) (a : agent) : Int × agent :=
  if ok then ((lowest_free a.handles : Nat), { a with handles := lowest_free a.handles :: a.handles })
  else (INVALID_HANDLE_VALUE, a)

/-- The call `CloseHandle`. -/
def close_handle (a : agent) (h : Int) : agent :=
  { a with handles := a.handles.filter (fun x => decide ((x : Int) ≠ h)) }

/-- The `switch (i)` of `platform_run` that computes `access`. -/
def open_access (i : Nat) : access_t :=
  match i with
  | 0 => access_t.GENERIC_READ
  | _ => access_t.FILE_APPEND_DATA

/-- The `switch (i)` of `platform_run` that computes `creation`. -/
def open_creation (i : Nat) (flags : Nat) : creation_t :=
  match i with
  | 0 => creation_t.OPEN_EXISTING
  | 1 => if flags &&& RUN_DNTRUNC_OUT ≠ 0 then creation_t.OPEN_ALWAYS else creation_t.CREATE_ALWAYS
  | _ => if flags &&& RUN_DNTRUNC_ERR ≠ 0 then creation_t.OPEN_ALWAYS else creation_t.CREATE_ALWAYS

/-- The clean-up loop
`while (i > 0) { if (fhs[i] != INVALID_HANDLE_VALUE) CloseHandle(fhs[i]); i--; }`. -/
def close_back (fhs : List Int) : Nat → agent → agent
  | 0, a => a
  | i + 1, a =>
    close_back fhs i
      (if fhs.getD (i + 1) INVALID_HANDLE_VALUE ≠ INVALID_HANDLE_VALUE then
        close_handle a (fhs.getD (i + 1) INVALID_HANDLE_VALUE)
      else a)

/-- The loop `for (i = 0; i < 3; i++)` of `platform_run` that prepares the
redirections, started at `i` with `n` rounds to go: `error` is the `return 0`
inside the loop, `ok` carries `fhs` to the code after the loop. -/
def open_redirects (env : run_env) (flags : Nat) (redirects : List String) :
    Nat → Nat → List Int → agent → Except agent (List Int × agent)
  | 0, _, fhs, a => .ok (fhs, a)
  | n + 1, i, fhs, a =>
    if redirects.getD i "" = "" then
      open_redirects env flags redirects n (i + 1) (fhs.set i (env.std_handle i)) a
    else
      let r := create_file
        (env.create_file_ok (redirects.getD i "") (open_access i) (open_creation i flags)) a
      if r.1 = INVALID_HANDLE_VALUE then
        .error (close_back (fhs.set i r.1) i
          (set_status r.2 status_t.ST_ERROR
            ("unable to open '" ++ redirects.getD i "" ++ "' for " ++
              (if i ≠ 0 then "writing" else "reading") ++ ": " ++ toString env.last_error)))
      else open_redirects env flags redirects n (i + 1) (fhs.set i r.1) r.2

/-- The final loop `for (i = 0; i < 3; i++) if (redirects[i][0]) CloseHandle(fhs[i]);`,
started at `i` with `n` rounds to go. -/
def close_redirects (redirects : List String) (fhs : List Int) : Nat → Nat → agent → agent
  | 0, _, a => a
  | n + 1, i, a =>
    close_redirects redirects fhs n (i + 1)
      (if redirects.getD i "" ≠ "" then close_handle a (fhs.getD i INVALID_HANDLE_VALUE) else a)

/-- The function `platform_run`: the returned `uint64_t` and the new state. -/
def platform_run (env : run_env) (argv : List String) (flags : Nat)
    (redirects : List String) (a : agent) : Nat × agent :=
  if env.malloc_ok = false then
    (0, set_status a status_t.ST_ERROR ("malloc() failed: " ++ env.strerror))
  else
    match open_redirects env flags redirects 3 0
        [INVALID_HANDLE_VALUE, INVALID_HANDLE_VALUE, INVALID_HANDLE_VALUE] a with
    | .error a1 => (0, a1)
    | .ok (fhs, a1) =>
      match env.create_process (run_cmdline argv) with
      | none =>
        (0, set_status a1 status_t.ST_ERROR
          ("could not run '" ++ run_cmdline argv ++ "': " ++ toString env.last_error))
      | some dwProcessId =>
        let hProcess := lowest_free a1.handles
        let hThread := lowest_free (hProcess :: a1.handles)
        let a2 := close_handle { a1 with handles := hThread :: hProcess :: a1.handles } hThread
        let a3 :=
          if flags &&& RUN_DNT ≠ 0 then close_handle a2 hProcess
          else { a2 with children := ⟨dwProcessId, hProcess⟩ :: a2.children }
        (dwProcessId, close_redirects redirects fhs 3 0 a3)

/-- The value `WAIT_OBJECT_0`. -/
def WAIT_OBJECT_0 : Nat := 0

/-- The value `WAIT_TIMEOUT`. -/
def WAIT_TIMEOUT : Nat := 258

/-- What the operating system answers during one `platform_wait` call. -/
structure wait_env where
  /-- the value `WaitForMultipleObjects` returns, given the timeout in
  milliseconds passed to it (`none` for `INFINITE`) -/
  wait_result : Option Nat → Nat
  /-- the exit code stored by `GetExitCodeProcess`, `none` when that call fails -/
  exit_code : Option Nat

/-- The function `platform_wait`: the returned `int`, the value stored to
`*childstatus` if any, and the new state. -/
def platform_wait (env : wait_env) (client : Nat) (pid : Nat) (timeout : Nat)
    (a : agent) : Nat × Option Nat × agent :=
  match find_child pid a.children with
  | none => (0, none, set_status a status_t.ST_ERROR (not_child_msg pid))
  | some idx =>
    let event := lowest_free a.handles
    let a1 := { a with handles := event :: a.handles }
    let r := env.wait_result
      (if timeout = RUN_NOTIMEOUT then none else some (timeout * 1000 % 2 ^ 32))
    if r = WAIT_OBJECT_0 then
      (0, none, close_handle (set_status a1 status_t.ST_ERROR "connection closed") event)
    else if r = WAIT_OBJECT_0 + 1 then
      match env.exit_code with
      | some code => (1, some code, close_handle a1 event)
      | none => (0, none, close_handle a1 event)
    else if r = WAIT_TIMEOUT then
      (0, none,
        close_handle (set_status a1 status_t.ST_ERROR "timed out waiting for the child process")
          event)
    else (0, none, close_handle a1 event)

/-- The function `platform_rmchildproc`: the returned `int` and the new state. -/
def platform_rmchildproc (client : Nat) (pid : Nat) (a : agent) : Nat × agent :=
  match find_child pid a.children with
  | none => (0, set_status a status_t.ST_ERROR (not_child_msg pid))
  | some idx =>
    (1, { close_handle a ((a.children.getD idx ⟨0, INVALID_HANDLE_VALUE⟩).handle) with
          children := list_remove a.children idx })

/-! ### build_command_line -/

/-- The `while (*a!='\0')` loop of the first pass of `build_command_line` over
the rest of one argument: the values of `bcount`, `has_space` and `len` when it
ends. -/
def length_scan : List Char → Nat → Bool → Nat → Nat × Bool × Nat
  | [], bcount, has_space, len => (bcount, has_space, len)
  | c :: a, bcount, has_space, len =>
    if c = BACKSLASH then length_scan a (bcount + 1) has_space len
    else if c = SPACE ∨ c = TAB then length_scan a 0 true len
    else if c = QUOTE then length_scan a 0 has_space (len + (2 * bcount + 1))
    else length_scan a 0 has_space len

/-- One round of the first `for` loop of `build_command_line`: the value of
`len` after the argument, from the value before it. -/
def length_arg (len : Nat) (arg : List Char) : Nat :=
  if (length_scan arg 0 (decide (arg = [])) len).2.1 then
    (length_scan arg 0 (decide (arg = [])) len).2.2 + (arg.length + 1) +
      (2 + (length_scan arg 0 (decide (arg = [])) len).1)
  else (length_scan arg 0 (decide (arg = [])) len).2.2 + (arg.length + 1)

/-- The first pass of `build_command_line`: the value of `len` that is passed to
`malloc` (the `int` is taken as a mathematical integer). -/
def length_pass (argv : List String) : Nat :=
  argv.foldl (fun len arg => length_arg len arg.data) 0

/-- The loop of the second pass that checks an argument for quotes and spaces,
with its two `break`s: the values of `has_space` and `has_quote` when it ends. -/
def detect_scan : List Char → Bool → Bool → Bool × Bool
  | [], has_space, has_quote => (has_space, has_quote)
  | c :: a, has_space, has_quote =>
    if c = SPACE ∨ c = TAB then
      if has_quote then (true, has_quote) else detect_scan a true has_quote
    else if c = QUOTE then
      if has_space then (has_space, true) else detect_scan a has_space true
    else detect_scan a has_space has_quote

/-- The loop of the second pass that transfers an argument with quotes or spaces
to the command line: the characters stored through `p` and the value of `bcount`
when it ends. -/
def transfer : List Char → Nat → List Char × Nat
  | [], bcount => ([], bcount)
  | c :: a, bcount =>
    if c = BACKSLASH then (c :: (transfer a (bcount + 1)).1, (transfer a (bcount + 1)).2)
    else if c = QUOTE then
      (List.replicate (bcount + 1) BACKSLASH ++ QUOTE :: (transfer a 0).1, (transfer a 0).2)
    else (c :: (transfer a 0).1, (transfer a 0).2)

/-- One round of the second `for` loop of `build_command_line` up to, and
without, the separating space: the characters stored through `p`. -/
def write_arg_body (arg : List Char) : List Char :=
  (if (detect_scan arg (decide (arg = [])) false).1 then [QUOTE] else []) ++
  (if (detect_scan arg (decide (arg = [])) false).2 ∨
      (detect_scan arg (decide (arg = [])) false).1 then (transfer arg 0).1
    else arg) ++
  (if (detect_scan arg (decide (arg = [])) false).1 then
      List.replicate (transfer arg 0).2 BACKSLASH ++ [QUOTE]
    else [])

/-- One round of the second `for` loop of `build_command_line`, the separator
`*p++=' '` included. -/
def write_arg (arg : List Char) : List Char := write_arg_body arg ++ [SPACE]

/-- The second pass of `build_command_line`: every character stored through `p`
by the `for` loop, in order. -/
def write_pass : List String → List Char
  | [] => []
  | arg :: argv => write_arg arg.data ++ write_pass argv

/-- The number of bytes of the buffer that the second pass writes: those of the
`for` loop, the last of which the final `*p = 0` overwrites; when the loop wrote
nothing the NUL goes to the first byte. -/
def bytes_written (argv : List String) : Nat := max (write_pass argv).length 1

/-- The function `build_command_line`: the command line, `none` for the NULL it
returns when `malloc` fails. -/
def build_command_line (malloc_ok : Bool) (argv : List String) : Option String :=
  if malloc_ok then some (String.mk (write_pass argv).dropLast) else none

/-- The Windows argv rules as the claims word them, as a scan over the command
line: `in_quotes` tells whether a quote delimiter is open, `in_arg` whether an
argument has begun, `cur` holds the characters of the argument so far and `bs`
counts the backslashes just read.  Whitespace (space or tab) outside quotes ends
the argument; 2n backslashes before a quote give n backslashes and a quote
delimiter; 2n+1 backslashes before a quote give n backslashes and a literal
quote; other backslashes are literal. -/
def split_state (l : List Char) (in_quotes in_arg : Bool) (cur : List Char) (bs : Nat) :
    List (List Char) :=
  match l with
  | [] => if in_arg then [cur ++ List.replicate bs BACKSLASH] else []
  | c :: l =>
    if c = BACKSLASH then split_state l in_quotes true cur (bs + 1)
    else if c = QUOTE then
      if bs % 2 = 0 then
        split_state l (!in_quotes) true (cur ++ List.replicate (bs / 2) BACKSLASH) 0
      else split_state l in_quotes true (cur ++ List.replicate (bs / 2) BACKSLASH ++ [QUOTE]) 0
    else if (c = SPACE ∨ c = TAB) ∧ in_quotes = false then
      if in_arg then (cur ++ List.replicate bs BACKSLASH) :: split_state l false false [] 0
      else split_state l false false [] 0
    else split_state l in_quotes true (cur ++ List.replicate bs BACKSLASH ++ [c]) 0

/-- The argv that the Windows argv rules rebuild from a command line. -/
def split_command_line (cmdline : String) : List String :=
  (split_state cmdline.data false false [] 0).map String.mk

/-! ### platform_upgrade -/

/-- The value `MAX_PATH`. -/
def MAX_PATH : Nat := 260

/-- What the operating system answers during one `platform_upgrade` call. -/
structure upgrade_env where
  /-- the file name of the running executable, which `GetModuleFileName` copies
  to the buffer (cut at the buffer size) -/
  module_filename : String
  /-- the result of `GetFullPathNameA` for a name, `none` when it returns 0 or
  more than the buffer size -/
  full_path : String → Option String
  /-- whether the system lets `MoveFile(existing, new)` through when `existing`
  is there and `new` is not -/
  move_ok : String → String → Bool
  /-- whether the `malloc` of `build_command_line` succeeds -/
  malloc_ok : Bool
  /-- whether `CreateProcessA(testagentd, cmdline, ...)` succeeds -/
  create_process_ok : String → String → Bool
  /-- the value of `GetLastError()` at the failure -/
  last_error : Nat

/-- The function `get_server_filename`; `none` is the NULL return. -/
def get_server_filename (env : upgrade_env) (old : Bool) : Option String :=
  if min env.module_filename.length MAX_PATH = 0 ∨
      min env.module_filename.length MAX_PATH = MAX_PATH then none
  else if old then
    if min env.module_filename.length MAX_PATH ≥ MAX_PATH - 5 then none
    else some (env.module_filename ++ ".old")
  else some env.module_filename

/-- The call `MoveFile`: it fails when the existing file is missing, when the new
name is taken already (`MoveFile` does not replace a file), or when the system
refuses; on success the file is under the new name. -/
def move_file (ok : Bool) (a : agent) (existing new : String) : Bool × agent :=
  match a.files.lookup existing, a.files.lookup new with
  | some f, none =>
    if ok then
      (true, { a with files := (new, f) :: a.files.filter (fun e => decide (e.1 ≠ existing)) })
    else (false, a)
  | _, _ => (false, a)

/-- The statement `if (oldtestagentd) MoveFile(oldtestagentd, testagentd);`. -/
def restore_oldtestagentd (env : upgrade_env) (testagentd : String)
    (oldtestagentd : Option String) (a : agent) : agent :=
  match oldtestagentd with
  | none => a
  | some o => (move_file (env.move_ok o testagentd) a o testagentd).2

/-- The part of `platform_upgrade` from `tmp_argv0 = argv[0]` to the end. -/
def upgrade_spawn (env : upgrade_env) (testagentd : String) (argv : List String)
    (oldtestagentd : Option String) (a : agent) : Nat × agent :=
  match build_command_line env.malloc_ok (argv.set 0 testagentd) with
  | none =>
    (0, restore_oldtestagentd env testagentd oldtestagentd
      (set_status a status_t.ST_ERROR "unable to build the new command line"))
  | some cmdline =>
    if env.create_process_ok testagentd cmdline then
      (1, { a with handles :=
        lowest_free (lowest_free a.handles :: a.handles) :: lowest_free a.handles :: a.handles })
    else
      (0, restore_oldtestagentd env testagentd oldtestagentd
        (set_status a status_t.ST_ERROR
          ("could not run '" ++ cmdline ++ "': " ++ toString env.last_error)))

/-- The function `platform_upgrade`: the returned `int` and the new state. -/
def platform_upgrade (env : upgrade_env) (current_argv0 : String) (argc : Nat)
    (argv : List String) (a : agent) : Nat × agent :=
  match get_server_filename env false with
  | none =>
    (0, set_status a status_t.ST_ERROR
      ("unable to get the process filename (le=" ++ toString env.last_error ++ ")"))
  | some testagentd =>
    match env.full_path (argv.getD 0 "") with
    | none =>
      (0, set_status a status_t.ST_ERROR
        ("could not get the full path for '" ++ argv.getD 0 "" ++ "' (le=" ++
          toString env.last_error ++ ")"))
    | some full_argv0 =>
      if testagentd ≠ full_argv0 then
        match get_server_filename env true with
        | none =>
          (0, set_status a status_t.ST_ERROR
            ("unable to get the backup filename (le=" ++ toString env.last_error ++ ")"))
        | some oldtestagentd =>
          if (move_file (env.move_ok testagentd oldtestagentd) a testagentd oldtestagentd).1
              = false then
            (0, set_status
              (move_file (env.move_ok testagentd oldtestagentd) a testagentd oldtestagentd).2
              status_t.ST_ERROR
              ("unable to move the current server file out of the way (le=" ++
                toString env.last_error ++ ")"))
          else if (move_file (env.move_ok (argv.getD 0 "") testagentd)
              (move_file (env.move_ok testagentd oldtestagentd) a testagentd oldtestagentd).2
              (argv.getD 0 "") testagentd).1 = false then
            (0, (move_file (env.move_ok oldtestagentd testagentd)
              (set_status
                (move_file (env.move_ok (argv.getD 0 "") testagentd)
                  (move_file (env.move_ok testagentd oldtestagentd) a testagentd
                    oldtestagentd).2
                  (argv.getD 0 "") testagentd).2
                status_t.ST_ERROR
                ("unable to move the new server file in place (le=" ++
                  toString env.last_error ++ ")"))
              oldtestagentd testagentd).2)
          else
            upgrade_spawn env testagentd argv (some oldtestagentd)
              (move_file (env.move_ok (argv.getD 0 "") testagentd)
                (move_file (env.move_ok testagentd oldtestagentd) a testagentd oldtestagentd).2
                (argv.getD 0 "") testagentd).2
      else upgrade_spawn env testagentd argv none a

/-! ### Concrete inputs -/

/-- The agent right after start: empty registry, the three standard handles
open, nothing recorded. -/
def startup : agent := ⟨[], [0, 1, 2], [], status_t.ST_OK, ""⟩

/-- An operating system in which every file opens and `CreateProcessA` fails. -/
def spawn_fails : run_env := ⟨true, fun i => i, fun _ _ _ => true, fun _ => none, 2, ""⟩

/-- An operating system in which every file opens and `CreateProcessA` starts a
process with the id `pid`. -/
def spawn_gives (pid : Nat) : run_env :=
  ⟨true, fun i => i, fun _ _ _ => true, fun _ => some pid, 0, ""⟩

/-- An agent that tracks the running child 5 through the process handle 3 and
talks to its client on socket 4. -/
def one_child : agent := ⟨[⟨5, 3⟩], [4, 3, 0, 1, 2], [], status_t.ST_OK, ""⟩

/-- A connection the client has closed: the socket-close event is the object that
wakes `WaitForMultipleObjects`. -/
def peer_closed : wait_env := ⟨fun _ => WAIT_OBJECT_0, none⟩

/-- An agent whose directory holds the running server and, elsewhere, a new
build of it. -/
def two_servers : agent :=
  ⟨[], [0, 1, 2], [("C:/agent/testagentd.exe", [1]), ("C:/new/testagentd.exe", [2])],
    status_t.ST_OK, ""⟩

/-- An operating system that runs the agent from `C:/agent/testagentd.exe`, lets
every `MoveFile` through, and in which `CreateProcessA` fails. -/
def spawn_refused : upgrade_env :=
  ⟨"C:/agent/testagentd.exe", fun name => some name, fun _ _ => true, true,
    fun _ _ => false, 2⟩

end Windows

/-! ## Theorems -/

/-! ### Auxiliary facts -/

theorem timed_out_ne_not_child (pid : Nat) :
    "timed out waiting for the child process" ≠ not_child_msg pid := by
  intro h
  have h2 := congrArg String.data h
  simp [not_child_msg, String.data_append] at h2

theorem closed_ne_not_child (pid : Nat) : "connection closed" ≠ not_child_msg pid := by
  intro h
  have h2 := congrArg String.data h
  simp [not_child_msg, String.data_append] at h2

theorem to_uint64_zero : to_uint64 0 = 0 := by decide

theorem lowest_free_not_mem (used : List Nat) : lowest_free used ∉ used := by
  unfold lowest_free
  cases h : (List.range (used.length + 1)).find? (fun n => !used.contains n) with
  | some n =>
    have := List.find?_some h
    simpa using this
  | none =>
    exfalso
    rw [List.find?_eq_none] at h
    have hsub : List.range (used.length + 1) ⊆ used := by
      intro x hx
      have := h x hx
      simpa using this
    have hle := ((List.nodup_range (used.length + 1)).subperm hsub).length_le
    simp at hle

namespace Unix

theorem sys_close_children (a : agent) (fd : Int) : (sys_close a fd).children = a.children := rfl

theorem sys_open_children (ok : Bool) (a : agent) : (sys_open ok a).2.children = a.children := by
  unfold sys_open; split <;> rfl

theorem set_status_children (a : agent) (s : status_t) (m : String) :
    (set_status a s m).children = a.children := rfl

theorem close_back_children (fds : List Int) (i : Nat) (a : agent) :
    (close_back fds i a).children = a.children := by
  induction i generalizing a with
  | zero => rfl
  | succ i ih =>
    rw [close_back, ih]
    split <;> rfl

theorem close_fds_children (fds : List Int) (n i : Nat) (a : agent) :
    (close_fds fds n i a).children = a.children := by
  induction n generalizing i a with
  | zero => rfl
  | succ n ih =>
    rw [close_fds, ih]
    split <;> rfl

theorem open_redirects_children (env : run_env) (flags : Nat) (redirects : List String)
    (n i : Nat) (fds : List Int) (a : agent) :
    (∀ a1, open_redirects env flags redirects n i fds a = .error a1 →
      a1.children = a.children) ∧
    (∀ r, open_redirects env flags redirects n i fds a = .ok r → r.2.children = a.children) := by
  induction n generalizing i fds a with
  | zero =>
    constructor
    · intro a1 h; simp [open_redirects] at h
    · intro r h
      simp only [open_redirects, Except.ok.injEq] at h
      rw [← h]
  | succ n ih =>
    rw [open_redirects]
    split
    · exact ih _ _ _
    · simp only []
      split
      · constructor
        · intro a1 h
          simp only [Except.error.injEq] at h
          rw [← h, close_back_children, set_status_children, sys_open_children]
        · intro r h; simp at h
      · have := ih (i + 1)
          (fds.set i (sys_open (env.open_ok (redirects.getD i "") (open_flags i flags)) a).1)
          (sys_open (env.open_ok (redirects.getD i "") (open_flags i flags)) a).2
        rw [sys_open_children] at this
        exact this

theorem find_child_eq_none {pid : Nat} {cs : List child_t} :
    find_child pid cs = none ↔ ∀ c ∈ cs, c.pid ≠ pid := by
  induction cs with
  | nil => simp [find_child]
  | cons c cs ih =>
    by_cases h : c.pid = pid
    · simp [find_child, h]
    · simp [find_child, h, ih]

theorem platform_run_success {env : run_env} {argv : List String} {flags : Nat}
    {redirects : List String} {a : agent} {ret : Nat} {a' : agent}
    (h : platform_run env argv flags redirects a = some (ret, a')) (hret : ret ≠ 0) :
    ret = to_uint64 env.fork ∧ 0 < env.fork ∧
    a'.children = (if flags &&& RUN_DNT = 0 then
      ⟨to_uint64 env.fork, false, env.malloc_status⟩ :: a.children else a.children) := by
  unfold platform_run at h
  split at h
  · simp only [Option.some.injEq, Prod.mk.injEq] at h
    exact absurd h.1.symm hret
  · rename_i fds a1 hok
    have hch := (open_redirects_children env flags redirects 3 0 [-1, -1, -1] a).2 _ hok
    simp only at hch
    split at h
    · simp at h
    · split at h
      · simp only [Option.some.injEq, Prod.mk.injEq] at h
        exact absurd (h.1.symm.trans to_uint64_zero) hret
      · rename_i h0 hneg
        have hpos : 0 < env.fork := by omega
        split at h
        · rename_i hf
          simp only [Option.some.injEq, Prod.mk.injEq] at h
          refine ⟨h.1.symm, hpos, ?_⟩
          rw [← h.2, close_fds_children, if_pos hf, hch]
        · rename_i hf
          simp only [Option.some.injEq, Prod.mk.injEq] at h
          refine ⟨h.1.symm, hpos, ?_⟩
          rw [← h.2, close_fds_children, if_neg hf, hch]

theorem wait_loop_reaped (env : wait_env) (idx timeout : Nat) (deadline : Int) (fuel n : Nat)
    (a : agent) (c : child_t) (hc : a.children[idx]? = some c) (hr : c.reaped = true) :
    wait_loop env idx timeout deadline fuel n a = some (1, some c.status, a) := by
  cases fuel <;> simp [wait_loop, hc, hr]

theorem wait_loop_outcome (env : wait_env) (idx timeout : Nat) (deadline : Int) (fuel n : Nat)
    (a : agent) (r : Nat × Option Nat × agent)
    (h : wait_loop env idx timeout deadline fuel n a = some r) :
    r.1 = 1 ∨ r.2.2.status_msg = "timed out waiting for the child process" ∨
      r.2.2.status_msg = "connection closed" := by
  induction fuel generalizing n a with
  | zero =>
    simp only [wait_loop] at h
    split at h
    · simp at h
    · split at h
      · simp only [Option.some.injEq] at h; rw [← h]; exact Or.inl rfl
      · simp at h
  | succ fuel ih =>
    simp only [wait_loop] at h
    split at h
    · simp at h
    · split at h
      · simp only [Option.some.injEq] at h; rw [← h]; exact Or.inl rfl
      · generalize env.select n _ = s at h
        split at h
        · simp only [Option.some.injEq] at h; rw [← h]; exact Or.inr (Or.inl rfl)
        · split at h
          · simp only [Option.some.injEq] at h; rw [← h]; exact Or.inr (Or.inr rfl)
          · exact ih _ _ h

theorem reaper_scan_pids (pid status : Int) (cs : List child_t) :
    (reaper_scan pid status cs).map (fun c => c.pid) = cs.map (fun c => c.pid) := by
  induction cs with
  | nil => rfl
  | cons c cs ih =>
    simp only [reaper_scan]
    split
    · simp
    · simp [ih]

theorem absent_of_pids {pid : Nat} {cs cs' : List child_t}
    (hp : cs'.map (fun c => c.pid) = cs.map (fun c => c.pid))
    (h : ∀ c ∈ cs, c.pid ≠ pid) : ∀ c ∈ cs', c.pid ≠ pid := by
  intro c hc hpid
  have : c.pid ∈ cs'.map (fun c => c.pid) := List.mem_map_of_mem _ hc
  rw [hp, List.mem_map] at this
  obtain ⟨c', hc', he⟩ := this
  exact h c' hc' (he.trans hpid)

theorem entries_with_zero {pid : Nat} {cs : List child_t} (h : entries_with pid cs = 0) :
    ∀ c ∈ cs, c.pid ≠ pid := by
  intro c hc hpid
  unfold entries_with at h
  rw [List.length_eq_zero] at h
  have : c ∈ cs.filter (fun c => decide (c.pid = pid)) := by
    simp [List.mem_filter, hc, hpid]
  rw [h] at this
  simp at this

theorem remove_single {pid : Nat} {cs : List child_t} (h : entries_with pid cs = 1) :
    ∃ idx, find_child pid cs = some idx ∧ ∀ c ∈ list_remove cs idx, c.pid ≠ pid := by
  induction cs with
  | nil => simp [entries_with] at h
  | cons c cs ih =>
    by_cases hc : c.pid = pid
    · refine ⟨0, by simp [find_child, hc], ?_⟩
      have h0 : entries_with pid cs = 0 := by
        simp [entries_with, List.filter_cons, hc] at h ⊢
        exact h
      simpa [list_remove] using entries_with_zero h0
    · have h1 : entries_with pid cs = 1 := by
        simp [entries_with, List.filter_cons, hc] at h ⊢
        exact h
      obtain ⟨idx, hf, ha⟩ := ih h1
      refine ⟨idx + 1, by simp [find_child, hc, hf], ?_⟩
      intro c' hc'
      simp only [list_remove, List.eraseIdx_cons_succ, List.mem_cons] at hc'
      rcases hc' with rfl | hc'
      · exact hc
      · exact ha c' hc'

theorem step_absent {pid : Nat} {e : event} {a : agent} (he : e.is_launch = false)
    (h : ∀ c ∈ a.children, c.pid ≠ pid) : ∀ c ∈ (step e a).children, c.pid ≠ pid := by
  cases e with
  | launch env argv flags redirects => simp [event.is_launch] at he
  | exit_notification p s =>
    exact absent_of_pids (reaper_scan_pids p s a.children) h
  | remove client q =>
    simp only [step, platform_rmchildproc]
    split
    · exact h
    · intro c hc
      exact h c (List.mem_of_mem_eraseIdx hc)

theorem run_events_absent {pid : Nat} {es : List event} {a : agent}
    (hes : ∀ e ∈ es, e.is_launch = false)
    (h : ∀ c ∈ a.children, c.pid ≠ pid) : ∀ c ∈ (run_events es a).children, c.pid ≠ pid := by
  induction es generalizing a with
  | nil => exact h
  | cons e es ih =>
    simp only [run_events, List.foldl_cons]
    exact ih (fun e' he' => hes e' (List.mem_cons_of_mem _ he'))
      (step_absent (hes e (List.mem_cons_self _ _)) h)

theorem rmchildproc_absent {pid : Nat} {a : agent} (h : ∀ c ∈ a.children, c.pid ≠ pid)
    (client : Nat) :
    platform_rmchildproc client pid a = (0, set_status a status_t.ST_ERROR (not_child_msg pid)) := by
  simp [platform_rmchildproc, find_child_eq_none.2 h]

theorem wait_absent {pid : Nat} {a : agent} (h : ∀ c ∈ a.children, c.pid ≠ pid)
    (env : wait_env) (fuel client timeout : Nat) :
    platform_wait env fuel client pid timeout a =
      some (0, none, set_status a status_t.ST_ERROR (not_child_msg pid)) := by
  simp [platform_wait, find_child_eq_none.2 h]

end Unix

namespace Windows

theorem win_close_handle_children (a : agent) (h : Int) :
    (close_handle a h).children = a.children := rfl

theorem win_create_file_children (ok : Bool) (a : agent) :
    (create_file ok a).2.children = a.children := by
  unfold create_file; split <;> rfl

theorem win_set_status_children (a : agent) (s : status_t) (m : String) :
    (set_status a s m).children = a.children := rfl

theorem win_close_back_children (fhs : List Int) (i : Nat) (a : agent) :
    (close_back fhs i a).children = a.children := by
  induction i generalizing a with
  | zero => rfl
  | succ i ih =>
    rw [close_back, ih]
    split <;> rfl

theorem win_close_redirects_children (redirects : List String) (fhs : List Int) (n i : Nat)
    (a : agent) : (close_redirects redirects fhs n i a).children = a.children := by
  induction n generalizing i a with
  | zero => rfl
  | succ n ih =>
    rw [close_redirects, ih]
    split <;> rfl

theorem win_open_redirects_children (env : run_env) (flags : Nat) (redirects : List String)
    (n i : Nat) (fhs : List Int) (a : agent) :
    (∀ a1, open_redirects env flags redirects n i fhs a = .error a1 →
      a1.children = a.children) ∧
    (∀ r, open_redirects env flags redirects n i fhs a = .ok r → r.2.children = a.children) := by
  induction n generalizing i fhs a with
  | zero =>
    constructor
    · intro a1 h; simp [open_redirects] at h
    · intro r h
      simp only [open_redirects, Except.ok.injEq] at h
      rw [← h]
  | succ n ih =>
    rw [open_redirects]
    split
    · exact ih _ _ _
    · simp only []
      split
      · constructor
        · intro a1 h
          simp only [Except.error.injEq] at h
          rw [← h, win_close_back_children, win_set_status_children, win_create_file_children]
        · intro r h; simp at h
      · have := ih (i + 1)
          (fhs.set i (create_file (env.create_file_ok (redirects.getD i "") (open_access i)
            (open_creation i flags)) a).1)
          (create_file (env.create_file_ok (redirects.getD i "") (open_access i)
            (open_creation i flags)) a).2
        rw [win_create_file_children] at this
        exact this

theorem win_platform_run_success {env : run_env} {argv : List String} {flags : Nat}
    {redirects : List String} {a : agent} {ret : Nat} {a' : agent}
    (h : platform_run env argv flags redirects a = (ret, a')) (hret : ret ≠ 0) :
    env.create_process (run_cmdline argv) = some ret ∧
    ((flags &&& RUN_DNT = 0 → ∃ hProcess, a'.children = ⟨ret, hProcess⟩ :: a.children) ∧
     (flags &&& RUN_DNT ≠ 0 → a'.children = a.children)) := by
  unfold platform_run at h
  split at h
  · simp only [Prod.mk.injEq] at h
    exact absurd h.1.symm hret
  · split at h
    · simp only [Prod.mk.injEq] at h
      exact absurd h.1.symm hret
    · rename_i fhs a1 hok
      have hch := (win_open_redirects_children env flags redirects 3 0 _ a).2 _ hok
      simp only at hch
      split at h
      · simp only [Prod.mk.injEq] at h
        exact absurd h.1.symm hret
      · rename_i pid hpid
        simp only [Prod.mk.injEq] at h
        obtain ⟨h1, h2⟩ := h
        subst h1
        refine ⟨hpid, ?_, ?_⟩
        · intro hf
          have hf' : ¬ (flags &&& RUN_DNT ≠ 0) := by simpa using hf
          refine ⟨((lowest_free a1.handles : Nat) : Int), ?_⟩
          rw [← h2, win_close_redirects_children, if_neg hf']
          simp only [win_close_handle_children, hch]
        · intro hf
          rw [← h2, win_close_redirects_children, if_pos hf]
          simp only [win_close_handle_children, hch]

theorem win_filter_ne_fresh (l : List Nat) (e : Nat) (he : e ∉ l) :
    (e :: l).filter (fun (x : Nat) => decide ((x : Int) ≠ (e : Int))) = l := by
  rw [List.filter_cons]
  simp only [ne_eq, not_true_eq_false, decide_False, Bool.false_eq_true, if_false]
  rw [List.filter_eq_self]
  intro x hx
  have : x ≠ e := fun h => he (h ▸ hx)
  simpa using this

theorem win_close_fresh_handle (a : agent) :
    close_handle { a with handles := lowest_free a.handles :: a.handles }
      ((lowest_free a.handles : Nat) : Int) = a := by
  have hf := win_filter_ne_fresh a.handles _ (lowest_free_not_mem a.handles)
  cases a
  simp only [close_handle] at hf ⊢
  rw [hf]

theorem win_wait_outcome {pid idx : Nat} {a : agent} (h : find_child pid a.children = some idx)
    (wenv : wait_env) (client timeout : Nat) :
    ((platform_wait wenv client pid timeout a).2.2.status = a.status ∧
      (platform_wait wenv client pid timeout a).2.2.status_msg = a.status_msg) ∨
    (platform_wait wenv client pid timeout a).2.2.status_msg = "connection closed" ∨
    (platform_wait wenv client pid timeout a).2.2.status_msg =
      "timed out waiting for the child process" := by
  simp only [platform_wait, h]
  generalize wenv.wait_result _ = w
  by_cases h0 : w = WAIT_OBJECT_0
  · rw [if_pos h0]; exact Or.inr (Or.inl rfl)
  · rw [if_neg h0]
    by_cases h1 : w = WAIT_OBJECT_0 + 1
    · rw [if_pos h1]
      cases wenv.exit_code <;> exact Or.inl ⟨rfl, rfl⟩
    · rw [if_neg h1]
      by_cases h2 : w = WAIT_TIMEOUT
      · rw [if_pos h2]; exact Or.inr (Or.inr rfl)
      · rw [if_neg h2]; exact Or.inl ⟨rfl, rfl⟩

end Windows

theorem Unix.reaper_scan_set (pid status : Int) {cs : List Unix.child_t} {idx : Nat}
    (h : Unix.find_child (to_uint64 pid) cs = some idx) :
    Unix.reaper_scan pid status cs = cs.set idx ⟨to_uint64 pid, true, to_uint32 status⟩ ∧
    Unix.find_child (to_uint64 pid)
      (cs.set idx ⟨to_uint64 pid, true, to_uint32 status⟩) = some idx := by
  induction cs generalizing idx with
  | nil => simp [Unix.find_child] at h
  | cons c cs ih =>
    by_cases hc : c.pid = to_uint64 pid
    · simp [Unix.find_child, hc] at h
      subst h
      simp [Unix.reaper_scan, hc, Unix.find_child]
    · simp [Unix.find_child, hc] at h
      obtain ⟨k, hk, rfl⟩ := h
      obtain ⟨h1, h2⟩ := ih hk
      simp [Unix.reaper_scan, hc, Unix.find_child, h1, h2]

theorem Unix.reaper_scan_absent {pid status : Int} {cs : List Unix.child_t}
    (h : ∀ c ∈ cs, c.pid ≠ to_uint64 pid) : Unix.reaper_scan pid status cs = cs := by
  induction cs with
  | nil => rfl
  | cons c cs ih =>
    have hc : c.pid ≠ to_uint64 pid := h c (List.mem_cons_self _ _)
    simp [Unix.reaper_scan, hc, ih (fun c' hc' => h c' (List.mem_cons_of_mem _ hc'))]

/-! ### C1: a failed install step of Upgrade -/

/-- Claim C1 (defect in platform_unix.c): when the rename of the new executable
into the current executable's path fails, `platform_upgrade` renames the backup
to `argv[0]`, the path of the new executable, and returns 0.  In both runs below
the two paths are different files and the backup rename succeeded; the current
executable's path holds no file at all when the error is returned.  In the first
run the roll-back rename goes through and the original ends up on the new
executable's path; in the second (new build on another file system) it is
refused as well and the original stays under the backup name. -/
theorem unix_upgrade_install_failure_leaves_no_server :
    Unix.sys_stat Unix.two_servers "testagentd" = some ⟨1, 10, [1]⟩ ∧
    Unix.sys_stat Unix.two_servers "new/testagentd" = some ⟨1, 11, [2]⟩ ∧
    (Unix.platform_upgrade Unix.install_refused "testagentd" 1 ["new/testagentd"]
        Unix.two_servers).map
      (fun r => (r.1, Unix.sys_stat r.2 "testagentd", Unix.sys_stat r.2 "new/testagentd"))
      = some (0, none, some ⟨1, 10, [1]⟩) ∧
    (Unix.platform_upgrade Unix.cross_device "testagentd" 1 ["/mnt/new/testagentd"]
        Unix.servers_on_two_devices).map
      (fun r => (r.1, Unix.sys_stat r.2 "testagentd", Unix.sys_stat r.2 Unix.OLDSERVER))
      = some (0, none, some ⟨1, 10, [1]⟩) := by
  decide

/-! ### C2: a redirect target that cannot be opened -/

/-- Claim C2 (defect in `platform_run`): with stdin redirected to a file that
opens and stdout redirected to a path that does not, `platform_run` returns 0
with the "for writing" error, forks nothing and adds no registry entry, but the
clean-up loop `while (i > 0)` stops before index 0: descriptor 3, opened for
stdin by this call, is still open afterwards. -/
theorem unix_run_leaks_stdin_redirect :
    Unix.startup.fds = [0, 1, 2] ∧
    Unix.platform_run Unix.only_input_opens ["prog"] 0 ["in.txt", "/nonexistent/out", ""]
        Unix.startup
      = some (0, ⟨[], [3, 0, 1, 2], [], status_t.ST_ERROR,
          "unable to open '/nonexistent/out' for writing: No such file or directory"⟩) := by
  decide

/-! ### C3: the deadline of Wait -/

theorem unix_wait_loop_pending_data (now : Nat → Int) (deadline : Int) (fuel n : Nat) :
    Unix.wait_loop (Unix.pending_data now) 0 0 deadline fuel n Unix.one_child = none := by
  induction fuel generalizing n with
  | zero => rfl
  | succ fuel ih =>
    have h := ih (n + 1)
    simp only [Unix.wait_loop, Unix.one_child, Unix.pending_data, Unix.deliver] at h ⊢
    simpa using h

/-- Claim C3 (defect in `platform_wait`): child 5 is tracked and not reaped, the
connection is open with one unread byte pending, and the timeout is 0, so the
deadline has been reached when the call starts.  Whatever the clock shows in
later passes, no number of passes through the loop makes `platform_wait` return:
`select` reports the socket readable at once, the peek finds the byte, and the
loop starts over without blocking and without timing out. -/
theorem unix_wait_never_times_out_with_pending_data (now : Nat → Int) (fuel : Nat) :
    Unix.platform_wait (Unix.pending_data now) fuel 3 5 0 Unix.one_child = none := by
  have h := unix_wait_loop_pending_data now
    (if (0 : Nat) ≠ RUN_NOTIMEOUT then (1000 : Int) + ((0 : Nat) : Int) else 0) fuel 0
  simpa [Unix.platform_wait, Unix.find_child, Unix.one_child, Unix.pending_data] using h

/-! ### C4: a tracked launch and the exit of its child -/

/-- What a tracked launch registers when no signal interrupts it: every
`platform_run` call that succeeds (returns a nonzero id) with RUN_DNT unset puts
a new entry for the returned id at the head of the registry, whatever the
registry held before.  On Unix the entry is not reaped; a following
`platform_rmchildproc` on the id returns 1 and takes exactly that entry away; a
following `platform_wait` on the id never fails with NotFound, and when `reaper`
has run for the child after the entry was linked it returns 1 with the delivered
status.  On Windows the entry carries the process handle; the lookup finds it,
`platform_rmchildproc` returns 1 and takes it away, `platform_wait` leaves the
recorded status as it was or records the closed connection or the timeout, and
when the process handle wakes the wait it returns 1 with the exit code. -/
theorem launch_tracked_child_is_registered :
    (∀ (env : Unix.run_env) (argv : List String) (flags : Nat) (redirects : List String)
        (a : Unix.agent) (ret : Nat) (a' : Unix.agent),
      Unix.platform_run env argv flags redirects a = some (ret, a') → ret ≠ 0 →
      flags &&& RUN_DNT = 0 →
        a'.children = ⟨ret, false, env.malloc_status⟩ :: a.children ∧
        (∀ client, Unix.platform_rmchildproc client ret a' =
          (1, { a' with children := a.children })) ∧
        (∀ wenv fuel client timeout r,
          Unix.platform_wait wenv fuel client ret timeout a' = some r →
            ¬ Unix.not_found ret r.1 r.2.2) ∧
        (∀ status wenv fuel client timeout,
          Unix.platform_wait wenv fuel client ret timeout (Unix.reaper env.fork status a') =
            some (1, some (to_uint32 status), Unix.reaper env.fork status a'))) ∧
    (∀ (env : Windows.run_env) (argv : List String) (flags : Nat) (redirects : List String)
        (a : Windows.agent) (ret : Nat) (a' : Windows.agent),
      Windows.platform_run env argv flags redirects a = (ret, a') → ret ≠ 0 →
      flags &&& RUN_DNT = 0 →
        (∃ hProcess, a'.children = ⟨ret, hProcess⟩ :: a.children) ∧
        Windows.find_child ret a'.children = some 0 ∧
        (∀ client, (Windows.platform_rmchildproc client ret a').1 = 1 ∧
          (Windows.platform_rmchildproc client ret a').2.children = a.children) ∧
        (∀ (wenv : Windows.wait_env) (client timeout : Nat) (r : Nat × Option Nat × Windows.agent),
          Windows.platform_wait wenv client ret timeout a' = r →
            (r.2.2.status = a'.status ∧ r.2.2.status_msg = a'.status_msg) ∨
            r.2.2.status_msg = "connection closed" ∨
            r.2.2.status_msg = "timed out waiting for the child process") ∧
        (∀ (wenv : Windows.wait_env) (client timeout code : Nat),
          wenv.wait_result (if timeout = RUN_NOTIMEOUT then none
            else some (timeout * 1000 % 2 ^ 32)) = Windows.WAIT_OBJECT_0 + 1 →
          wenv.exit_code = some code →
            Windows.platform_wait wenv client ret timeout a' = (1, some code, a'))) := by
  constructor
  · intro env argv flags redirects a ret a' h hret hf
    obtain ⟨h1, h2, h3⟩ := Unix.platform_run_success h hret
    rw [if_pos hf, ← h1] at h3
    have hfind : Unix.find_child ret a'.children = some 0 := by
      rw [h3]; simp [Unix.find_child]
    refine ⟨h3, ?_, ?_, ?_⟩
    · intro client
      simp only [Unix.platform_rmchildproc, hfind, Unix.list_remove]
      simp [h3]
    · intro wenv fuel client timeout r hr hnf
      simp only [Unix.platform_wait, hfind] at hr
      rcases Unix.wait_loop_outcome _ _ _ _ _ _ _ _ hr with h | h | h
      · rw [hnf.1] at h; exact absurd h (by decide)
      · exact timed_out_ne_not_child ret (h.symm.trans hnf.2.2)
      · exact closed_ne_not_child ret (h.symm.trans hnf.2.2)
    · intro status wenv fuel client timeout
      have hch : (Unix.reaper env.fork status a').children =
          ⟨ret, true, to_uint32 status⟩ :: a.children := by
        simp [Unix.reaper, h3, Unix.reaper_scan, h1]
      have hfind2 : Unix.find_child ret (Unix.reaper env.fork status a').children = some 0 := by
        rw [hch]; simp [Unix.find_child]
      simp only [Unix.platform_wait, hfind2]
      exact Unix.wait_loop_reaped _ _ _ _ _ _ _ ⟨ret, true, to_uint32 status⟩
        (by rw [hch]; simp) rfl
  · intro env argv flags redirects a ret a' h hret hf
    obtain ⟨h1, h2, _⟩ := Windows.win_platform_run_success h hret
    obtain ⟨hp, h3⟩ := h2 hf
    have hfind : Windows.find_child ret a'.children = some 0 := by
      rw [h3]; simp [Windows.find_child]
    refine ⟨⟨hp, h3⟩, hfind, ?_, ?_, ?_⟩
    · intro client
      simp only [Windows.platform_rmchildproc, hfind, Windows.list_remove]
      simp [h3]
    · intro wenv client timeout r hr
      subst hr
      exact Windows.win_wait_outcome hfind wenv client timeout
    · intro wenv client timeout code hw hc
      simp only [Windows.platform_wait, hfind, hw, hc]
      simp [Windows.WAIT_OBJECT_0, Windows.win_close_fresh_handle]

/-- Witness for `launch_tracked_child_is_registered`: a launch on each platform
from the start state, the child getting the id 7 on Unix and 44 on Windows. -/
theorem launch_tracked_child_is_registered_witness :
    Unix.platform_run (Unix.fork_gives 7) ["prog"] 0 ["", "", ""] Unix.startup =
      some (7, ⟨[⟨7, false, 0⟩], [0, 1, 2], [], status_t.ST_OK, ""⟩) ∧
    Unix.platform_rmchildproc 3 7 ⟨[⟨7, false, 0⟩], [0, 1, 2], [], status_t.ST_OK, ""⟩ =
      (1, Unix.startup) ∧
    Windows.platform_run (Windows.spawn_gives 44) ["prog"] 0 ["", "", ""] Windows.startup =
      (44, ⟨[⟨44, 3⟩], [3, 0, 1, 2], [], status_t.ST_OK, ""⟩) ∧
    Windows.find_child 44
      (⟨[⟨44, 3⟩], [3, 0, 1, 2], [], status_t.ST_OK, ""⟩ : Windows.agent).children = some 0 :=
  ⟨by decide,
    (launch_tracked_child_is_registered.1 (Unix.fork_gives 7) ["prog"] 0 ["", "", ""]
      Unix.startup 7 ⟨[⟨7, false, 0⟩], [0, 1, 2], [], status_t.ST_OK, ""⟩
      (by decide) (by decide) (by decide)).2.1 3,
    by decide,
    (launch_tracked_child_is_registered.2 (Windows.spawn_gives 44) ["prog"] 0 ["", "", ""]
      Windows.startup 44 ⟨[⟨44, 3⟩], [3, 0, 1, 2], [], status_t.ST_OK, ""⟩
      (by decide) (by decide) (by decide)).2.1⟩

theorem Unix.wait_loop_never_reaped (env : Unix.wait_env)
    (hq : ∀ n tv, (env.select n tv).sigchld = []) (idx timeout : Nat) (deadline : Int)
    (a : Unix.agent) (child : Unix.child_t) (hc : a.children[idx]? = some child)
    (hr : child.reaped = false) :
    ∀ (fuel n : Nat) (r : Nat × Option Nat × Unix.agent),
      Unix.wait_loop env idx timeout deadline fuel n a = some r → r.1 = 0 := by
  intro fuel
  induction fuel with
  | zero =>
    intro n r h
    simp [Unix.wait_loop, hc, hr] at h
  | succ fuel ih =>
    intro n r h
    simp only [Unix.wait_loop, hc, hr, hq, Unix.deliver, List.foldl_nil] at h
    simp only [Bool.false_eq_true, if_false] at h
    generalize env.select n _ = s at h
    split at h
    · cases h; rfl
    · split at h
      · cases h; rfl
      · exact ih _ _ h

/-- Claim C4 (defect in `platform_run` of platform_unix.c): the child gets the
pid 7, cannot run its program and exits with code 1 (wait status 256) at once.
Its SIGCHLD is delivered after `fork()` has returned and before `list_add_head`:
`reaper` collects the child with `wait`, finds no entry for pid 7 and drops the
status, and `platform_run` then registers an entry for pid 7 that is not reaped
and returns 7.  The child has been reaped, yet a `platform_wait` of 10 seconds
on the returned id ends with the TimedOut error and no status, and for every
clock, every behaviour of the socket, every timeout and every number of passes
(no further SIGCHLD can come for the collected child) `platform_wait` either
does not return or returns 0: the exit status is lost.  When the same SIGCHLD
arrives after the entry is linked, during the Wait, `platform_wait` returns 1
with the status 256.  Without a signal in the window the schedule is
`platform_run` itself. -/
theorem unix_launch_loses_exit_before_registration :
    Unix.platform_run_interrupted (Unix.fork_gives 7) [(7, 256)] ["prog"] 0 ["", "", ""]
        Unix.connected =
      some (7, ⟨[⟨7, false, 0⟩], [3, 0, 1, 2], [], status_t.ST_OK, ""⟩) ∧
    Unix.platform_wait Unix.quiet 1 3 7 10
        ⟨[⟨7, false, 0⟩], [3, 0, 1, 2], [], status_t.ST_OK, ""⟩ =
      some (0, none, ⟨[⟨7, false, 0⟩], [3, 0, 1, 2], [], status_t.ST_ERROR,
        "timed out waiting for the child process"⟩) ∧
    (∀ (time0 : Int) (now : Nat → Int) (ready : Nat → Option Int → Int)
        (isset : Nat → Option Int → Bool) (recv : Nat → Option Int → Int)
        (fuel client timeout : Nat),
      Option.map Prod.fst
          (Unix.platform_wait (Unix.no_sigchld time0 now ready isset recv) fuel client 7 timeout
            ⟨[⟨7, false, 0⟩], [3, 0, 1, 2], [], status_t.ST_OK, ""⟩) = none ∨
      Option.map Prod.fst
          (Unix.platform_wait (Unix.no_sigchld time0 now ready isset recv) fuel client 7 timeout
            ⟨[⟨7, false, 0⟩], [3, 0, 1, 2], [], status_t.ST_OK, ""⟩) = some 0) ∧
    Unix.platform_run (Unix.fork_gives 7) ["prog"] 0 ["", "", ""] Unix.connected =
      some (7, ⟨[⟨7, false, 0⟩], [3, 0, 1, 2], [], status_t.ST_OK, ""⟩) ∧
    Unix.platform_wait (Unix.child_exits 7 256) 1 3 7 10
        ⟨[⟨7, false, 0⟩], [3, 0, 1, 2], [], status_t.ST_OK, ""⟩ =
      some (1, some 256, ⟨[⟨7, true, 256⟩], [3, 0, 1, 2], [], status_t.ST_OK, ""⟩) ∧
    (∀ (env : Unix.run_env) (argv : List String) (flags : Nat) (redirects : List String)
        (a : Unix.agent),
      Unix.platform_run_interrupted env [] argv flags redirects a =
        Unix.platform_run env argv flags redirects a) := by
  refine ⟨by decide, by decide, ?_, by decide, by decide, ?_⟩
  · intro time0 now ready isset recv fuel client timeout
    cases h : Unix.platform_wait (Unix.no_sigchld time0 now ready isset recv) fuel client 7
        timeout ⟨[⟨7, false, 0⟩], [3, 0, 1, 2], [], status_t.ST_OK, ""⟩ with
    | none => exact Or.inl rfl
    | some r =>
      refine Or.inr ?_
      have h0 : r.1 = 0 := by
        simp only [Unix.platform_wait, Unix.find_child, if_true] at h
        exact Unix.wait_loop_never_reaped _ (fun _ _ => rfl) _ _ _ _ ⟨7, false, 0⟩ rfl rfl
          _ _ _ h
      simp [h0]
  · intro env argv flags redirects a
    simp only [Unix.platform_run_interrupted, Unix.platform_run, Unix.deliver, List.foldl_nil]

/-! ### C5: Wait on a child that is already reaped -/

/-- Claim C5: when the entry that the lookup finds for a pid is already reaped,
`platform_wait` returns 1 with exactly the status stored in that entry, for every
behaviour of the socket and the clock, every timeout (0 included) and without a
single pass through the `select` loop (the bound on passes may be 0); the state,
and with it the entry, is returned unchanged, so a second `platform_wait` on the
same pid returns the same status.  On Windows, where the registry keeps the open
process handle in place of a reaped flag, a wait that the process handle wakes
returns 1 with the exit code and leaves the state unchanged as well. -/
theorem wait_on_reaped_child_returns_stored_status :
    (∀ (a : Unix.agent) (pid idx : Nat) (c : Unix.child_t),
      Unix.find_child pid a.children = some idx → a.children[idx]? = some c →
      c.reaped = true →
      ∀ (wenv : Unix.wait_env) (fuel client timeout : Nat),
        Unix.platform_wait wenv fuel client pid timeout a = some (1, some c.status, a) ∧
        ∀ (wenv2 : Unix.wait_env) (fuel2 client2 timeout2 : Nat),
          (Unix.platform_wait wenv fuel client pid timeout a).bind
              (fun r => Unix.platform_wait wenv2 fuel2 client2 pid timeout2 r.2.2)
            = some (1, some c.status, a)) ∧
    (∀ (a : Windows.agent) (pid idx : Nat), Windows.find_child pid a.children = some idx →
      ∀ (wenv : Windows.wait_env) (client timeout code : Nat),
        wenv.wait_result (if timeout = RUN_NOTIMEOUT then none
          else some (timeout * 1000 % 2 ^ 32)) = Windows.WAIT_OBJECT_0 + 1 →
        wenv.exit_code = some code →
          Windows.platform_wait wenv client pid timeout a = (1, some code, a)) := by
  constructor
  · intro a pid idx c hfind hc hr
    have key : ∀ (wenv : Unix.wait_env) (fuel client timeout : Nat),
        Unix.platform_wait wenv fuel client pid timeout a = some (1, some c.status, a) := by
      intro wenv fuel client timeout
      simp only [Unix.platform_wait, hfind]
      exact Unix.wait_loop_reaped _ _ _ _ _ _ _ c hc hr
    intro wenv fuel client timeout
    refine ⟨key wenv fuel client timeout, ?_⟩
    intro wenv2 fuel2 client2 timeout2
    rw [key wenv fuel client timeout]
    exact key wenv2 fuel2 client2 timeout2
  · intro a pid idx hfind wenv client timeout code hw hc
    simp only [Windows.platform_wait, hfind, hw, hc]
    simp [Windows.WAIT_OBJECT_0, Windows.win_close_fresh_handle]

/-- Witness for `wait_on_reaped_child_returns_stored_status`: the registry holds
child 5, reaped with status 0; a Wait with timeout 0 and no pass allowed, on a
connection with unread data, returns the status.  On Windows the process handle
of child 5 wakes the wait and the exit code is 0. -/
theorem wait_on_reaped_child_returns_stored_status_witness :
    Unix.find_child 5 Unix.stale_entry.children = some 0 ∧
    Unix.stale_entry.children[0]? = some ⟨5, true, 0⟩ ∧
    Unix.platform_wait (Unix.pending_data (fun _ => 1000)) 0 3 5 0 Unix.stale_entry =
      some (1, some 0, Unix.stale_entry) ∧
    Windows.find_child 5 Windows.one_child.children = some 0 ∧
    Windows.platform_wait ⟨fun _ => Windows.WAIT_OBJECT_0 + 1, some 0⟩ 4 5 0 Windows.one_child =
      (1, some 0, Windows.one_child) :=
  ⟨by decide, by decide,
    (wait_on_reaped_child_returns_stored_status.1 Unix.stale_entry 5 0 ⟨5, true, 0⟩
      (by decide) (by decide) rfl (Unix.pending_data (fun _ => 1000)) 0 3 0).1,
    by decide,
    wait_on_reaped_child_returns_stored_status.2 Windows.one_child 5 0 (by decide)
      ⟨fun _ => Windows.WAIT_OBJECT_0 + 1, some 0⟩ 4 0 0 rfl rfl⟩

/-! ### C6: the connection closes during Wait -/

/-- Claim C6 (defect in platform_windows.c): child 5 is tracked and running and
the client closes the connection during a Wait with a 10 second timeout.  On Unix
(`select` reports the socket readable, the peek returns 0) `platform_wait`
returns 0 with the status ST_FATAL.  On Windows (the socket-close event wakes
`WaitForMultipleObjects`) `platform_wait` returns 0 with the status ST_ERROR, the
class it also uses for NotFound and the timeout, and ST_ERROR is not ST_FATAL. -/
theorem windows_wait_connection_closed_is_not_fatal :
    Unix.platform_wait Unix.peer_closed 1 3 5 10 Unix.one_child =
      some (0, none, Unix.set_status Unix.one_child status_t.ST_FATAL "connection closed") ∧
    Windows.platform_wait Windows.peer_closed 4 5 10 Windows.one_child =
      (0, none, Windows.set_status Windows.one_child status_t.ST_ERROR "connection closed") ∧
    status_t.ST_ERROR ≠ status_t.ST_FATAL := by
  decide

/-! ### C7: Remove and NotFound -/

/-- Claim C7 (counterexample): the registry `pid_reused` is reached from the
start state by a Launch that got pid 5, the exit notification for 5, and a second
Launch to which `fork` gave the free pid 5 again; it holds two entries with pid
5.  Remove on 5 succeeds and unlinks the first of them only; with no Launch in
between, a second Remove on 5 succeeds again and a Wait on 5 returns 1 with
status 0, where the claim promises NotFound. -/
theorem unix_second_remove_succeeds_on_reused_pid :
    Unix.pid_reused.children = [⟨5, false, 0⟩, ⟨5, true, 0⟩] ∧
    (Unix.platform_rmchildproc 3 5 Unix.pid_reused).1 = 1 ∧
    (Unix.platform_rmchildproc 3 5 Unix.pid_reused).2.children = [⟨5, true, 0⟩] ∧
    (Unix.platform_rmchildproc 3 5 (Unix.platform_rmchildproc 3 5 Unix.pid_reused).2).1 = 1 ∧
    (Unix.platform_wait Unix.peer_closed 1 3 5 0
        (Unix.platform_rmchildproc 3 5 Unix.pid_reused).2).map (fun r => (r.1, r.2.1))
      = some (1, some 0) := by
  decide

/-- Claim C7 (amended): for every registry and every pid, `platform_rmchildproc`
on a pid that no entry carries returns 0 with the NotFound error and changes
nothing else in the state; and when exactly one entry carries the pid,
`platform_rmchildproc` returns 1, and after any sequence of exit notifications
and Removes (no Launch) every further `platform_rmchildproc` and `platform_wait`
on that pid fails with NotFound. -/
theorem remove_then_not_found_when_pid_unique (a : Unix.agent) (pid : Nat) :
    ((∀ c ∈ a.children, c.pid ≠ pid) → ∀ client,
      Unix.platform_rmchildproc client pid a =
        (0, Unix.set_status a status_t.ST_ERROR (not_child_msg pid))) ∧
    (Unix.entries_with pid a.children = 1 → ∀ client,
      (Unix.platform_rmchildproc client pid a).1 = 1 ∧
      ∀ es : List Unix.event, (∀ e ∈ es, e.is_launch = false) →
        ∀ (wenv : Unix.wait_env) (fuel client2 timeout : Nat),
          Unix.platform_rmchildproc client2 pid
              (Unix.run_events es (Unix.platform_rmchildproc client pid a).2) =
            (0, Unix.set_status (Unix.run_events es (Unix.platform_rmchildproc client pid a).2)
              status_t.ST_ERROR (not_child_msg pid)) ∧
          Unix.platform_wait wenv fuel client2 pid timeout
              (Unix.run_events es (Unix.platform_rmchildproc client pid a).2) =
            some (0, none,
              Unix.set_status (Unix.run_events es (Unix.platform_rmchildproc client pid a).2)
                status_t.ST_ERROR (not_child_msg pid))) := by
  constructor
  · intro h client
    exact Unix.rmchildproc_absent h client
  · intro h client
    obtain ⟨idx, hf, ha⟩ := Unix.remove_single h
    have hrm : Unix.platform_rmchildproc client pid a =
        (1, { a with children := Unix.list_remove a.children idx }) := by
      simp only [Unix.platform_rmchildproc, hf]
    rw [hrm]
    refine ⟨rfl, ?_⟩
    intro es hes wenv fuel client2 timeout
    have hab := @Unix.run_events_absent pid es
      { a with children := Unix.list_remove a.children idx } hes ha
    exact ⟨Unix.rmchildproc_absent hab client2, Unix.wait_absent hab wenv fuel client2 timeout⟩

/-- Witness for `remove_then_not_found_when_pid_unique`: Remove on pid 9, which
the registry `one_child` does not hold, and Remove on its only child 5 followed
by an exit notification and a second Remove on 5. -/
theorem remove_then_not_found_when_pid_unique_witness :
    (∀ c ∈ Unix.one_child.children, c.pid ≠ 9) ∧
    Unix.platform_rmchildproc 3 9 Unix.one_child =
      (0, Unix.set_status Unix.one_child status_t.ST_ERROR (not_child_msg 9)) ∧
    Unix.entries_with 5 Unix.one_child.children = 1 ∧
    (Unix.platform_rmchildproc 3 5 Unix.one_child).1 = 1 ∧
    (Unix.platform_rmchildproc 3 5
        (Unix.run_events [Unix.event.exit_notification 5 0]
          (Unix.platform_rmchildproc 3 5 Unix.one_child).2)).1 = 0 :=
  ⟨by decide,
    (remove_then_not_found_when_pid_unique Unix.one_child 9).1 (by decide) 3,
    by decide,
    ((remove_then_not_found_when_pid_unique Unix.one_child 5).2 (by decide) 3).1,
    congrArg Prod.fst
      ((((remove_then_not_found_when_pid_unique Unix.one_child 5).2 (by decide) 3).2
        [Unix.event.exit_notification 5 0] (by decide) Unix.peer_closed 1 3 0).1)⟩

/-! ### C8: a launch with the no-track flag -/

/-- Claim C9 (counterexample): the entry of child 5 got the status 0 from a
first exit notification for pid 5; a second notification for pid 5 with the
status 256 leaves the reaped flag set and overwrites the stored status with 256,
where the claim promises that it stays 0. -/
theorem unix_second_notification_overwrites_status :
    (Unix.reaper 5 0 Unix.one_child).children = [⟨5, true, 0⟩] ∧
    (Unix.reaper 5 256 (Unix.reaper 5 0 Unix.one_child)).children = [⟨5, true, 256⟩] := by
  decide

/-- Claim C9 (amended): for every registry, pid and statuses s1, s2: when the
lookup finds an entry for the pid, a delivery (pid, s1) sets the reaped flag and
the status s1 in that entry and changes no other entry, and a later delivery
(pid, s2) keeps the reaped flag set and replaces the status by s2 (the last
delivery wins), again changing no other entry; a delivery for a pid that no
entry carries leaves the whole state unchanged. -/
theorem notification_last_delivery_wins (a : Unix.agent) (pid s1 s2 : Int) :
    (∀ idx, Unix.find_child (to_uint64 pid) a.children = some idx →
      (Unix.reaper pid s1 a).children =
        a.children.set idx ⟨to_uint64 pid, true, to_uint32 s1⟩ ∧
      (Unix.reaper pid s2 (Unix.reaper pid s1 a)).children =
        a.children.set idx ⟨to_uint64 pid, true, to_uint32 s2⟩) ∧
    ((∀ c ∈ a.children, c.pid ≠ to_uint64 pid) → Unix.reaper pid s1 a = a) := by
  constructor
  · intro idx h
    obtain ⟨h1, h2⟩ := Unix.reaper_scan_set pid s1 h
    obtain ⟨h3, _⟩ := Unix.reaper_scan_set pid s2 h2
    refine ⟨by simp [Unix.reaper, h1], ?_⟩
    simp only [Unix.reaper, h1, h3, List.set_set]
  · intro h
    cases a
    simp only [Unix.reaper, Unix.reaper_scan_absent h]

/-- Witness for `notification_last_delivery_wins`: two deliveries for the tracked
child 5, and one delivery for pid 9, which the registry does not hold. -/
theorem notification_last_delivery_wins_witness :
    Unix.find_child (to_uint64 5) Unix.one_child.children = some 0 ∧
    (Unix.reaper 5 256 (Unix.reaper 5 0 Unix.one_child)).children =
      Unix.one_child.children.set 0 ⟨to_uint64 5, true, to_uint32 256⟩ ∧
    (∀ c ∈ Unix.one_child.children, c.pid ≠ to_uint64 9) ∧
    Unix.reaper 9 0 Unix.one_child = Unix.one_child :=
  ⟨by decide,
    ((notification_last_delivery_wins Unix.one_child 5 0 256).1 0 (by decide)).2,
    by decide,
    (notification_last_delivery_wins Unix.one_child 9 0 0).2 (by decide)⟩

/-! ### C10: the spawn fails after the redirects were opened -/

/-- Claim C10 (defect in platform_windows.c): stdout is redirected to a file
that opens and the spawn fails.  On Windows `platform_run` returns 0 with the
status ST_ERROR and an unchanged registry straight from the `CreateProcessA`
failure branch: handle 3, opened for stdout by this call, is still open.  On Unix
the `fork` failure branch falls through to the closing loop and the descriptors
are those from before the call. -/
theorem windows_run_leaks_redirect_on_spawn_failure :
    Windows.startup.handles = [0, 1, 2] ∧
    (Windows.platform_run Windows.spawn_fails ["prog"] 0 ["", "out.txt", ""]
        Windows.startup).1 = 0 ∧
    (Windows.platform_run Windows.spawn_fails ["prog"] 0 ["", "out.txt", ""]
        Windows.startup).2.handles = [3, 0, 1, 2] ∧
    (Windows.platform_run Windows.spawn_fails ["prog"] 0 ["", "out.txt", ""]
        Windows.startup).2.children = [] ∧
    (Windows.platform_run Windows.spawn_fails ["prog"] 0 ["", "out.txt", ""]
        Windows.startup).2.status = status_t.ST_ERROR ∧
    (Unix.platform_run (Unix.fork_gives (-1)) ["prog"] 0 ["", "out.txt", ""]
        Unix.startup).map (fun r => (r.1, r.2.fds, r.2.children, r.2.status))
      = some (0, [0, 1, 2], [], status_t.ST_ERROR) := by
  decide

/-! ### C11: the open mode of the redirect targets -/

/-- Claim C11 (defect in platform_unix.c): for every flags value the `ofl` that
`platform_run` computes for stdout and for stderr holds `O_APPEND` and `O_CREAT`
but neither `O_WRONLY` nor `O_RDWR`, so the access mode passed to `open` is
`O_RDONLY`: the targets are not opened with write access.  The run below
redirects stdout to a file that can be opened for writing only; the `open` that
`platform_run` issues is refused and the call returns 0 with its own "for
writing" error.  On Windows the access asked for is `FILE_APPEND_DATA`. -/
theorem unix_run_opens_outputs_without_write_access :
    (∀ flags : Nat,
      Unix.write_access (Unix.open_flags 1 flags) = false ∧
      Unix.write_access (Unix.open_flags 2 flags) = false ∧
      Unix.oflag.O_APPEND ∈ Unix.open_flags 1 flags ∧
      Unix.oflag.O_CREAT ∈ Unix.open_flags 1 flags ∧
      Unix.oflag.O_APPEND ∈ Unix.open_flags 2 flags ∧
      Unix.oflag.O_CREAT ∈ Unix.open_flags 2 flags ∧
      Windows.open_access 1 = Windows.access_t.FILE_APPEND_DATA ∧
      Windows.open_access 2 = Windows.access_t.FILE_APPEND_DATA) ∧
    Unix.platform_run Unix.write_only_log ["prog"] 0 ["", "out.log", ""] Unix.startup =
      some (0, ⟨[], [0, 1, 2], [], status_t.ST_ERROR,
        "unable to open 'out.log' for writing: Permission denied"⟩) := by
  refine ⟨?_, by decide⟩
  intro flags
  refine ⟨?_, ?_, ?_, ?_, ?_, ?_, rfl, rfl⟩
  · simp only [Unix.open_flags, Unix.write_access]; split <;> decide
  · simp only [Unix.open_flags, Unix.write_access]; split <;> decide
  · simp [Unix.open_flags]
  · simp [Unix.open_flags]
  · simp [Unix.open_flags]
  · simp [Unix.open_flags]

/-! ### C12: SetSystemTime and the leeway -/

theorem settime_offset (epoch : Nat) (clock : Int) (he : epoch < 2 ^ 63) (h0 : 0 ≤ clock)
    (h1 : clock < 2 ^ 63) :
    to_uint64 (llabs (to_int64 (to_uint64 (clock - (epoch : Int))))) =
      (clock - (epoch : Int)).natAbs := by
  unfold to_uint64 llabs to_int64
  norm_num at he h1 ⊢
  split <;> omega

theorem to_int64_small (epoch : Nat) (he : epoch < 2 ^ 63) : to_int64 (epoch : Int) = epoch := by
  unfold to_int64
  norm_num at he ⊢
  omega

/-- Claim C12 (counterexample): the clock shows 1700000000, the leeway is
4000000000 seconds (a 32-bit value) and epochSeconds is 2^64 - 1300000000 (a
64-bit value).  The difference computed in `uint64_t` wraps around to
3000000000, `platform_settime` reports the skipped result 2 and leaves the clock
alone, although the true absolute difference between the clock and epochSeconds
is far above the leeway. -/
theorem unix_settime_skips_on_wrapped_epoch :
    2 ^ 64 - 1300000000 < 2 ^ 64 ∧ 4000000000 < 2 ^ 32 ∧
    Unix.platform_settime ⟨true, ""⟩ (2 ^ 64 - 1300000000) 4000000000 1700000000 Unix.startup
      = (2, 1700000000, Unix.startup) ∧
    ¬ ((1700000000 - ((2 ^ 64 - 1300000000 : Nat) : Int)).natAbs ≤ 4000000000) := by
  decide

/-- Claim C12 (amended): for every epochSeconds below 2^63, every leewaySeconds
and every clock value from 0 up to 2^63 - 1, `platform_settime` returns 2 and
leaves the clock unchanged when leewaySeconds is nonzero and the absolute
difference between the clock and epochSeconds is at most leewaySeconds; in every
other case, so always when leewaySeconds is 0, it sets the clock to epochSeconds
and returns 1, or, when `settimeofday` fails, returns 0 with the error recorded
and the clock unchanged. -/
theorem settime_skips_exactly_within_leeway (env : Unix.settime_env) (epoch leeway : Nat)
    (clock : Int) (a : Unix.agent) (he : epoch < 2 ^ 63) (h0 : 0 ≤ clock)
    (h1 : clock < 2 ^ 63) :
    (leeway ≠ 0 ∧ (clock - (epoch : Int)).natAbs ≤ leeway →
      Unix.platform_settime env epoch leeway clock a = (2, clock, a)) ∧
    (¬ (leeway ≠ 0 ∧ (clock - (epoch : Int)).natAbs ≤ leeway) →
      (env.settimeofday_ok = true →
        Unix.platform_settime env epoch leeway clock a = (1, (epoch : Int), a)) ∧
      (env.settimeofday_ok = false →
        Unix.platform_settime env epoch leeway clock a =
          (0, clock, Unix.set_status a status_t.ST_ERROR
            ("failed to set the time: " ++ env.strerror)))) := by
  unfold Unix.platform_settime
  rw [settime_offset epoch clock he h0 h1, to_int64_small epoch he]
  refine ⟨fun h => by rw [if_pos h], fun h => ?_⟩
  rw [if_neg h]
  exact ⟨fun hok => by rw [if_pos hok], fun hok => by simp [hok]⟩

/-- Witness for `settime_skips_exactly_within_leeway`: the clock is 30 seconds
ahead of the requested time; with a leeway of 60 the call is skipped, with a
leeway of 0 the clock is set. -/
theorem settime_skips_exactly_within_leeway_witness :
    Unix.platform_settime ⟨true, ""⟩ 1700000000 60 1700000030 Unix.startup =
      (2, 1700000030, Unix.startup) ∧
    Unix.platform_settime ⟨true, ""⟩ 1700000000 0 1700000030 Unix.startup =
      (1, 1700000000, Unix.startup) :=
  ⟨(settime_skips_exactly_within_leeway ⟨true, ""⟩ 1700000000 60 1700000030 Unix.startup
      (by decide) (by decide) (by decide)).1 (by decide),
    ((settime_skips_exactly_within_leeway ⟨true, ""⟩ 1700000000 0 1700000030 Unix.startup
      (by decide) (by decide) (by decide)).2 (by decide)).1 rfl⟩

/-! ### C13: Wait does not write the registry -/

theorem Unix.deliver_append (l1 l2 : List (Int × Int)) (a : Unix.agent) :
    Unix.deliver (l1 ++ l2) a = Unix.deliver l2 (Unix.deliver l1 a) := by
  simp [Unix.deliver, List.foldl_append]

theorem Unix.deliver_frame (l : List (Int × Int)) (a : Unix.agent) :
    (Unix.deliver l a).fds = a.fds ∧ (Unix.deliver l a).files = a.files ∧
    (Unix.deliver l a).children.map (fun c => c.pid) = a.children.map (fun c => c.pid) := by
  induction l generalizing a with
  | nil => exact ⟨rfl, rfl, rfl⟩
  | cons d l ih =>
    obtain ⟨h1, h2, h3⟩ := ih (Unix.reaper d.1 d.2 a)
    refine ⟨h1, h2, ?_⟩
    simp only [Unix.deliver, List.foldl_cons] at h3 ⊢
    rw [h3]
    exact Unix.reaper_scan_pids d.1 d.2 a.children

theorem Unix.find_child_of_pids (pid : Nat) {cs cs' : List Unix.child_t}
    (h : cs.map (fun c => c.pid) = cs'.map (fun c => c.pid)) :
    Unix.find_child pid cs = Unix.find_child pid cs' := by
  induction cs generalizing cs' with
  | nil =>
    cases cs' with
    | nil => rfl
    | cons c' cs' => simp at h
  | cons c cs ih =>
    cases cs' with
    | nil => simp at h
    | cons c' cs' =>
      simp only [List.map_cons, List.cons.injEq] at h
      simp only [Unix.find_child, h.1, ih h.2]

theorem Unix.wait_loop_frame (env : Unix.wait_env) (idx timeout : Nat) (deadline : Int)
    (fuel n : Nat) (a : Unix.agent) (r : Nat × Option Nat × Unix.agent)
    (h : Unix.wait_loop env idx timeout deadline fuel n a = some r) :
    ∃ l : List (Int × Int), (∀ d ∈ l, ∃ m tv, d ∈ (env.select m tv).sigchld) ∧
      r.2.2.children = (Unix.deliver l a).children ∧ r.2.2.fds = a.fds ∧
      r.2.2.files = a.files := by
  induction fuel generalizing n a with
  | zero =>
    simp only [Unix.wait_loop] at h
    split at h
    · simp at h
    · split at h
      · simp only [Option.some.injEq] at h; rw [← h]
        exact ⟨[], by simp, rfl, rfl, rfl⟩
      · simp at h
  | succ fuel ih =>
    simp only [Unix.wait_loop] at h
    split at h
    · simp at h
    · split at h
      · simp only [Option.some.injEq] at h; rw [← h]
        exact ⟨[], by simp, rfl, rfl, rfl⟩
      · generalize hs : env.select n _ = s at h
        have hmem : ∀ d ∈ s.sigchld, ∃ m tv, d ∈ (env.select m tv).sigchld := by
          intro d hd
          exact ⟨n, _, by rw [hs]; exact hd⟩
        obtain ⟨f1, f2, _⟩ := Unix.deliver_frame s.sigchld a
        split at h
        · simp only [Option.some.injEq] at h; rw [← h]
          exact ⟨s.sigchld, hmem, rfl, f1, f2⟩
        · split at h
          · simp only [Option.some.injEq] at h; rw [← h]
            exact ⟨s.sigchld, hmem, rfl, f1, f2⟩
          · obtain ⟨l, hl, h1, h2, h3⟩ := ih _ _ h
            refine ⟨s.sigchld ++ l, ?_, ?_, h2.trans f1, h3.trans f2⟩
            · intro d hd
              rcases List.mem_append.1 hd with hd | hd
              · exact hmem d hd
              · exact hl d hd
            · rw [h1, Unix.deliver_append]

/-- Claim C13 (counterexample): the children 5 and 6 are tracked and running.  A
Wait of 10 seconds on child 5 returns the TimedOut error; child 6 exits during
the call and the signal handler marks its entry reaped with the status 256.  The
registry after the call differs from the registry before it in the reaped flag
and the status of that entry, where the claim promises the same flags and
statuses. -/
theorem unix_wait_timed_out_after_sibling_reaped :
    Unix.two_children.children = [⟨5, false, 0⟩, ⟨6, false, 0⟩] ∧
    Unix.platform_wait Unix.other_child_exits 2 3 5 10 Unix.two_children =
      some (0, none, ⟨[⟨5, false, 0⟩, ⟨6, true, 256⟩], [3, 0, 1, 2], [], status_t.ST_ERROR,
        "timed out waiting for the child process"⟩) := by
  decide

/-- Claim C13 (amended): `platform_wait` itself never writes the registry.  On
Unix, whenever the call returns (with the TimedOut error or any other result),
for every registry, every behaviour of `select`, `recv` and the clock and every
timeout, the registry
it leaves is the registry from before the call with the exit notifications
applied that the signal handler received during the call, and nothing else: the
entries, their order and their pids are the same, the descriptors and files are
untouched, the lookup of the pid gives the same entry as before (so the Wait can
be retried and the entry removed), and when no exit notification arrives during
the call the registry is exactly the one from before.  On Windows, which has no
signal handler, the registry and the open handles after the call are exactly
those from before. -/
theorem wait_leaves_registry_unchanged :
    (∀ (env : Unix.wait_env) (fuel client pid timeout : Nat) (a : Unix.agent)
        (r : Nat × Option Nat × Unix.agent),
      Unix.platform_wait env fuel client pid timeout a = some r →
        (∃ l : List (Int × Int), (∀ d ∈ l, ∃ m tv, d ∈ (env.select m tv).sigchld) ∧
          r.2.2.children = (Unix.deliver l a).children) ∧
        r.2.2.children.map (fun c => c.pid) = a.children.map (fun c => c.pid) ∧
        r.2.2.fds = a.fds ∧ r.2.2.files = a.files ∧
        Unix.find_child pid r.2.2.children = Unix.find_child pid a.children ∧
        ((∀ m tv, (env.select m tv).sigchld = []) → r.2.2.children = a.children)) ∧
    (∀ (env : Windows.wait_env) (client pid timeout : Nat) (a : Windows.agent),
      (Windows.platform_wait env client pid timeout a).2.2.children = a.children ∧
      (Windows.platform_wait env client pid timeout a).2.2.handles = a.handles) := by
  constructor
  · intro env fuel client pid timeout a r h
    have key : ∃ l : List (Int × Int), (∀ d ∈ l, ∃ m tv, d ∈ (env.select m tv).sigchld) ∧
        r.2.2.children = (Unix.deliver l a).children ∧ r.2.2.fds = a.fds ∧
        r.2.2.files = a.files := by
      simp only [Unix.platform_wait] at h
      split at h
      · simp only [Option.some.injEq] at h; rw [← h]
        exact ⟨[], by simp, rfl, rfl, rfl⟩
      · exact Unix.wait_loop_frame _ _ _ _ _ _ _ _ h
    obtain ⟨l, hl, h1, h2, h3⟩ := key
    have hp : r.2.2.children.map (fun c => c.pid) = a.children.map (fun c => c.pid) := by
      rw [h1]; exact (Unix.deliver_frame l a).2.2
    refine ⟨⟨l, hl, h1⟩, hp, h2, h3, Unix.find_child_of_pids pid hp, ?_⟩
    intro hq
    have hnil : l = [] := by
      cases l with
      | nil => rfl
      | cons d l =>
        obtain ⟨m, tv, hm⟩ := hl d (List.mem_cons_self _ _)
        rw [hq m tv] at hm
        simp at hm
    rw [h1, hnil]; rfl
  · intro env client pid timeout a
    simp only [Windows.platform_wait]
    split
    · exact ⟨rfl, rfl⟩
    · generalize env.wait_result _ = w
      have hfresh := Windows.win_filter_ne_fresh a.handles _ (lowest_free_not_mem a.handles)
      by_cases h0 : w = Windows.WAIT_OBJECT_0
      · rw [if_pos h0]; exact ⟨rfl, hfresh⟩
      · rw [if_neg h0]
        by_cases h1 : w = Windows.WAIT_OBJECT_0 + 1
        · rw [if_pos h1]
          cases env.exit_code <;> exact ⟨rfl, hfresh⟩
        · rw [if_neg h1]
          by_cases h2 : w = Windows.WAIT_TIMEOUT
          · rw [if_pos h2]; exact ⟨rfl, hfresh⟩
          · rw [if_neg h2]; exact ⟨rfl, hfresh⟩

/-- Witness for `wait_leaves_registry_unchanged`: a Wait of 10 seconds on the
running child 5 over a quiet connection returns the TimedOut error and the
registry is the one from before the call. -/
theorem wait_leaves_registry_unchanged_witness :
    Unix.platform_wait Unix.quiet 1 3 5 10 Unix.one_child =
      some (0, none, Unix.set_status Unix.one_child status_t.ST_ERROR
        "timed out waiting for the child process") ∧
    (Unix.set_status Unix.one_child status_t.ST_ERROR
        "timed out waiting for the child process").children = Unix.one_child.children :=
  ⟨by decide,
    (wait_leaves_registry_unchanged.1 Unix.quiet 1 3 5 10 Unix.one_child
      (0, none, Unix.set_status Unix.one_child status_t.ST_ERROR
        "timed out waiting for the child process") (by decide)).2.2.2.2.2
      (fun _ _ => rfl)⟩

/-! ### Auxiliary facts about build_command_line -/

namespace Windows

theorem special_chars : BACKSLASH ≠ QUOTE ∧ BACKSLASH ≠ SPACE ∧ BACKSLASH ≠ TAB ∧
    QUOTE ≠ SPACE ∧ QUOTE ≠ TAB := by decide

theorem split_replicate (k : Nat) (l : List Char) (q : Bool) (cur : List Char) (bs : Nat) :
    split_state (List.replicate k BACKSLASH ++ l) q true cur bs =
      split_state l q true cur (bs + k) := by
  induction k generalizing bs with
  | zero => simp
  | succ k ih =>
    rw [List.replicate_succ, List.cons_append, split_state, if_pos rfl, ih]
    congr 1
    omega

theorem detect_scan_eq (a : List Char) (hs hq : Bool) :
    detect_scan a hs hq =
      (hs || a.any (fun c => decide (c = SPACE ∨ c = TAB)),
        hq || a.any (fun c => decide (c = QUOTE))) := by
  induction a generalizing hs hq with
  | nil => simp [detect_scan]
  | cons c a ih =>
    simp only [detect_scan, List.any_cons]
    by_cases hw : c = SPACE ∨ c = TAB
    · have hq' : c ≠ QUOTE := by
        rcases hw with h | h <;> rw [h] <;> decide
      rw [if_pos hw, decide_eq_true hw, decide_eq_false hq']
      cases hq
      · simp [ih]
      · simp
    · rw [if_neg hw, decide_eq_false hw]
      by_cases hc : c = QUOTE
      · rw [if_pos hc, decide_eq_true hc]
        cases hs
        · simp [ih]
        · simp
      · rw [if_neg hc, decide_eq_false hc, ih]
        simp

theorem transfer_no_quote (a : List Char) (b : Nat) (h : ∀ c ∈ a, c ≠ QUOTE) :
    (transfer a b).1 = a := by
  induction a generalizing b with
  | nil => rfl
  | cons c a ih =>
    have hc : c ≠ QUOTE := h c (List.mem_cons_self _ _)
    have ha : ∀ c ∈ a, c ≠ QUOTE := fun x hx => h x (List.mem_cons_of_mem _ hx)
    simp only [transfer]
    split
    · simp [ih _ ha]
    · simp [hc, ih _ ha]

theorem split_transfer (a : List Char) (b : Nat) (q ia : Bool) (cur tail : List Char)
    (hws : q = false → ∀ c ∈ a, ¬ (c = SPACE ∨ c = TAB)) :
    ∃ cur', split_state ((transfer a b).1 ++ tail) q ia cur b =
        split_state tail q (ia || !a.isEmpty) cur' (transfer a b).2 ∧
      cur' ++ List.replicate (transfer a b).2 BACKSLASH =
        cur ++ List.replicate b BACKSLASH ++ a := by
  induction a generalizing b ia cur with
  | nil => exact ⟨cur, by simp [transfer], by simp [transfer]⟩
  | cons c a ih =>
    have hws' : q = false → ∀ c ∈ a, ¬ (c = SPACE ∨ c = TAB) :=
      fun hq x hx => hws hq x (List.mem_cons_of_mem _ hx)
    by_cases hb : c = BACKSLASH
    · obtain ⟨cur', h1, h2⟩ := ih (b + 1) true cur hws'
      refine ⟨cur', ?_, ?_⟩
      · simp only [transfer, if_pos hb, List.cons_append]
        rw [split_state, if_pos hb, h1]
        simp
      · simp only [transfer, if_pos hb]
        rw [h2, hb, List.replicate_succ']
        simp
    · by_cases hq : c = QUOTE
      · obtain ⟨cur', h1, h2⟩ := ih 0 true (cur ++ List.replicate b BACKSLASH ++ [QUOTE]) hws'
        refine ⟨cur', ?_, ?_⟩
        · simp only [transfer, if_neg hb, if_pos hq, List.append_assoc, List.cons_append]
          cases ia
          · cases b with
            | zero =>
              simp only [Nat.zero_add, List.replicate_one, List.cons_append, List.nil_append]
              rw [split_state, if_pos rfl, split_state, if_neg special_chars.1.symm, if_pos rfl]
              simp only [List.append_assoc] at h1
              simpa using h1
            | succ b =>
              rw [List.replicate_succ, List.cons_append, split_state, if_pos rfl,
                split_replicate, split_state, if_neg special_chars.1.symm, if_pos rfl]
              have e1 : (b + 1 + 1 + (b + 1)) % 2 = 1 := by omega
              have e2 : (b + 1 + 1 + (b + 1)) / 2 = b + 1 := by omega
              rw [if_neg (by omega), e2]
              simp only [List.append_assoc] at h1
              simpa using h1
          · rw [split_replicate, split_state, if_neg special_chars.1.symm, if_pos rfl]
            have e1 : (b + (b + 1)) % 2 = 1 := by omega
            have e2 : (b + (b + 1)) / 2 = b := by omega
            rw [if_neg (by omega), e2]
            simp only [List.append_assoc] at h1
            simpa using h1
        · simp only [transfer, if_neg hb, if_pos hq]
          rw [h2, hq]
          simp
      · obtain ⟨cur', h1, h2⟩ := ih 0 true (cur ++ List.replicate b BACKSLASH ++ [c]) hws'
        refine ⟨cur', ?_, ?_⟩
        · simp only [transfer, if_neg hb, if_neg hq, List.cons_append]
          rw [split_state, if_neg hb, if_neg hq]
          have hns : ¬ ((c = SPACE ∨ c = TAB) ∧ q = false) := by
            intro h
            exact hws h.2 c (List.mem_cons_self _ _) h.1
          rw [if_neg hns, h1]
          simp
        · simp only [transfer, if_neg hb, if_neg hq]
          rw [h2]
          simp

theorem split_write_arg_body (arg tail : List Char) :
    ∃ cur' b', split_state (write_arg_body arg ++ tail) false false [] 0 =
        split_state tail false true cur' b' ∧
      cur' ++ List.replicate b' BACKSLASH = arg := by
  unfold write_arg_body
  rw [detect_scan_eq]
  simp only [Bool.false_or]
  by_cases hsp : (decide (arg = []) || arg.any (fun c => decide (c = SPACE ∨ c = TAB))) = true
  · -- the argument is wrapped in quotes
    simp only [hsp, if_true, or_true]
    obtain ⟨cur', h1, h2⟩ := split_transfer arg 0 true true []
      (List.replicate (transfer arg 0).2 BACKSLASH ++ [QUOTE] ++ tail) (by simp)
    refine ⟨cur' ++ List.replicate (transfer arg 0).2 BACKSLASH, 0, ?_, by simpa using h2⟩
    simp only [List.cons_append, List.nil_append, List.append_assoc] at h1 ⊢
    rw [split_state, if_neg special_chars.1.symm, if_pos rfl]
    simp only [Nat.zero_mod, if_true, Nat.zero_div, List.replicate_zero, List.append_nil,
      Bool.not_false]
    rw [h1, Bool.true_or, split_replicate, split_state, if_neg special_chars.1.symm, if_pos rfl]
    have e1 : ((transfer arg 0).2 + (transfer arg 0).2) % 2 = 0 := by omega
    have e2 : ((transfer arg 0).2 + (transfer arg 0).2) / 2 = (transfer arg 0).2 := by omega
    rw [if_pos e1, e2]
    rfl
  · -- the argument is written without surrounding quotes
    have hsp' : (decide (arg = []) || arg.any (fun c => decide (c = SPACE ∨ c = TAB))) = false := by
      simpa using hsp
    rw [Bool.or_eq_false_iff] at hsp'
    obtain ⟨hne, hws⟩ := hsp'
    have hne' : arg ≠ [] := by simpa using hne
    have hws' : ∀ c ∈ arg, ¬ (c = SPACE ∨ c = TAB) := by
      intro c hc
      have := List.any_eq_false.1 hws c hc
      simpa using this
    have hbody : (if arg.any (fun c => decide (c = QUOTE)) = true ∨
          (decide (arg = []) || arg.any (fun c => decide (c = SPACE ∨ c = TAB))) = true
        then (transfer arg 0).1 else arg) = (transfer arg 0).1 := by
      split
      · rfl
      · rename_i hno
        have hnq : ∀ c ∈ arg, c ≠ QUOTE := by
          intro c hc hq
          apply hno
          left
          exact List.any_eq_true.2 ⟨c, hc, by simpa using hq⟩
        exact (transfer_no_quote arg 0 hnq).symm
    rw [hbody]
    simp only [hne, hws, Bool.or_false, Bool.false_eq_true, if_false, List.nil_append,
      List.append_nil]
    obtain ⟨cur', h1, h2⟩ := split_transfer arg 0 false false [] tail (fun _ => hws')
    refine ⟨cur', (transfer arg 0).2, ?_, by simpa using h2⟩
    rw [h1]
    have : arg.isEmpty = false := by
      cases arg with
      | nil => exact absurd rfl hne'
      | cons c a => rfl
    simp [this]

theorem write_pass_ne_nil (arg : String) (argv : List String) :
    write_pass (arg :: argv) ≠ [] := by
  simp [write_pass, write_arg]

theorem split_write_pass (argv : List String) (h : argv ≠ []) :
    split_state (write_pass argv).dropLast false false [] 0 = argv.map String.data := by
  induction argv with
  | nil => exact absurd rfl h
  | cons arg argv ih =>
    cases argv with
    | nil =>
      obtain ⟨cur', b', h1, h2⟩ := split_write_arg_body arg.data []
      simp only [write_pass, write_arg, List.append_nil, List.dropLast_concat, List.map_cons,
        List.map_nil] at h1 ⊢
      rw [h1, split_state]
      simp [h2]
    | cons arg2 argv =>
      have hne := write_pass_ne_nil arg2 argv
      obtain ⟨cur', b', h1, h2⟩ := split_write_arg_body arg.data
        (SPACE :: (write_pass (arg2 :: argv)).dropLast)
      have hd : (write_pass (arg :: arg2 :: argv)).dropLast =
          write_arg_body arg.data ++ SPACE :: (write_pass (arg2 :: argv)).dropLast := by
        rw [write_pass, List.dropLast_append_of_ne_nil _ hne, write_arg]
        simp
      rw [hd, h1, split_state, if_neg special_chars.2.1.symm, if_neg special_chars.2.2.2.1.symm]
      simp only [true_or, and_self, if_true]
      rw [h2, ih (by simp)]
      simp

theorem length_scan_eq (a : List Char) (b : Nat) (hs : Bool) (len : Nat) :
    (length_scan a b hs len).1 = (transfer a b).2 ∧
    (length_scan a b hs len).2.1 = (hs || a.any (fun c => decide (c = SPACE ∨ c = TAB))) ∧
    (transfer a b).1.length + len ≤ (length_scan a b hs len).2.2 + a.length := by
  induction a generalizing b hs len with
  | nil => simp [length_scan, transfer]
  | cons c a ih =>
    simp only [length_scan, transfer, List.any_cons]
    by_cases hb : c = BACKSLASH
    · have hw : ¬ (c = SPACE ∨ c = TAB) := by
        rw [hb]; exact fun h => h.elim special_chars.2.1 special_chars.2.2.1
      obtain ⟨h1, h2, h3⟩ := ih (b + 1) hs len
      rw [if_pos hb, if_pos hb, decide_eq_false hw]
      refine ⟨h1, by simpa using h2, ?_⟩
      simp only [List.length_cons]
      omega
    · rw [if_neg hb, if_neg hb]
      by_cases hw : c = SPACE ∨ c = TAB
      · have hq : c ≠ QUOTE := by
          rcases hw with h | h <;> rw [h] <;> decide
        obtain ⟨h1, h2, h3⟩ := ih 0 true len
        rw [if_pos hw, if_neg hq, decide_eq_true hw]
        refine ⟨h1, by simpa using h2, ?_⟩
        simp only [List.length_cons]
        omega
      · rw [if_neg hw, decide_eq_false hw]
        by_cases hq : c = QUOTE
        · obtain ⟨h1, h2, h3⟩ := ih 0 hs (len + (2 * b + 1))
          rw [if_pos hq, if_pos hq]
          refine ⟨h1, by simpa using h2, ?_⟩
          simp only [List.length_append, List.length_replicate, List.length_cons]
          omega
        · obtain ⟨h1, h2, h3⟩ := ih 0 hs len
          rw [if_neg hq, if_neg hq]
          refine ⟨h1, by simpa using h2, ?_⟩
          simp only [List.length_cons]
          omega

theorem length_scan_mono (a : List Char) (b : Nat) (hs : Bool) (len : Nat) :
    len ≤ (length_scan a b hs len).2.2 := by
  induction a generalizing b hs len with
  | nil => simp [length_scan]
  | cons c a ih =>
    simp only [length_scan]
    split
    · exact ih _ _ _
    · split
      · exact ih _ _ _
      · split
        · exact le_trans (by omega) (ih _ _ _)
        · exact ih _ _ _

theorem length_arg_bound (len : Nat) (arg : List Char) :
    len + (write_arg arg).length ≤ length_arg len arg := by
  obtain ⟨h1, h2, h3⟩ := length_scan_eq arg 0 (decide (arg = [])) len
  have hm := length_scan_mono arg 0 (decide (arg = [])) len
  unfold length_arg write_arg write_arg_body
  rw [detect_scan_eq, h2, h1]
  simp only [Bool.false_or]
  by_cases hsp : (decide (arg = []) || arg.any (fun c => decide (c = SPACE ∨ c = TAB))) = true
  · simp only [hsp, if_true, or_true, List.length_append, List.length_cons, List.length_nil,
      List.length_replicate]
    omega
  · simp only [hsp, if_false, or_false, List.length_append, List.length_cons, List.length_nil,
      List.nil_append, List.append_nil, Bool.false_eq_true]
    split
    · omega
    · omega

theorem length_pass_bound (argv : List String) (len : Nat) :
    len + (write_pass argv).length ≤
      argv.foldl (fun len arg => length_arg len arg.data) len := by
  induction argv generalizing len with
  | nil => simp [write_pass]
  | cons arg argv ih =>
    simp only [write_pass, List.length_append, List.foldl_cons]
    have h1 := length_arg_bound len arg.data
    have h2 := ih (length_arg len arg.data)
    omega

end Windows

/-! ### C15: build_command_line can be split back into argv -/

/-- Claim C15: for every non-empty argv (the arguments may be empty and may hold
spaces, tabs, double quotes and backslashes anywhere), splitting the command line
that `build_command_line` builds by the Windows argv rules gives back exactly
argv; and the examples of the function's comment hold: `a b` gives `"a b"`, a
lone quote gives backslash quote, backslash quote gives three backslashes and a
quote, space backslash gives quote space backslash backslash quote, and `a\b`
stays as it is. -/
theorem build_command_line_round_trip (argv : List String) (h : argv ≠ []) :
    (Windows.build_command_line true argv).map Windows.split_command_line = some argv ∧
    Windows.build_command_line true [String.mk ['a', Windows.SPACE, 'b']] =
      some (String.mk [Windows.QUOTE, 'a', Windows.SPACE, 'b', Windows.QUOTE]) ∧
    Windows.build_command_line true [String.mk [Windows.QUOTE]] =
      some (String.mk [Windows.BACKSLASH, Windows.QUOTE]) ∧
    Windows.build_command_line true [String.mk [Windows.BACKSLASH, Windows.QUOTE]] =
      some (String.mk
        [Windows.BACKSLASH, Windows.BACKSLASH, Windows.BACKSLASH, Windows.QUOTE]) ∧
    Windows.build_command_line true [String.mk [Windows.SPACE, Windows.BACKSLASH]] =
      some (String.mk [Windows.QUOTE, Windows.SPACE, Windows.BACKSLASH, Windows.BACKSLASH,
        Windows.QUOTE]) ∧
    Windows.build_command_line true [String.mk ['a', Windows.BACKSLASH, 'b']] =
      some (String.mk ['a', Windows.BACKSLASH, 'b']) := by
  refine ⟨?_, by decide, by decide, by decide, by decide, by decide⟩
  simp only [Windows.build_command_line, if_true, Option.map_some', Windows.split_command_line,
    Windows.split_write_pass argv h, List.map_map]
  have hid : (String.mk ∘ String.data) = id := funext (fun _ => rfl)
  rw [hid, List.map_id]

/-- Witness for `build_command_line_round_trip`: a server path with a space, an
empty argument, and an argument with a quote after two backslashes and with a
backslash at its end. -/
theorem build_command_line_round_trip_witness :
    (Windows.build_command_line true
        [String.mk ['C', ':', Windows.BACKSLASH, 'a', Windows.SPACE, 'b'], "",
          String.mk [Windows.BACKSLASH, Windows.BACKSLASH, Windows.QUOTE, 'x', Windows.SPACE,
            Windows.BACKSLASH]]).map Windows.split_command_line =
      some [String.mk ['C', ':', Windows.BACKSLASH, 'a', Windows.SPACE, 'b'], "",
        String.mk [Windows.BACKSLASH, Windows.BACKSLASH, Windows.QUOTE, 'x', Windows.SPACE,
          Windows.BACKSLASH]] :=
  (build_command_line_round_trip
    [String.mk ['C', ':', Windows.BACKSLASH, 'a', Windows.SPACE, 'b'], "",
      String.mk [Windows.BACKSLASH, Windows.BACKSLASH, Windows.QUOTE, 'x', Windows.SPACE,
        Windows.BACKSLASH]] (by simp)).1

/-! ### C16: the command line of platform_run -/

/-- Claim C16 (defect in platform_windows.c): `platform_run` wraps each argument
in quotes and puts one backslash before each embedded quote, but leaves
backslashes alone.  For the argument `a` backslash the command line ends in
backslash quote, which the Windows argv rules read as a literal quote: the
argument comes back as `a` quote.  For the argument `c` backslash quote `d` the
two backslashes before the quote come back as one backslash and the quote is
lost.  `build_command_line` of the same file gives back both argument lists. -/
theorem windows_run_cmdline_loses_backslashes :
    Windows.split_command_line
        (Windows.run_cmdline ["prog", String.mk ['a', Windows.BACKSLASH]]) =
      ["prog", String.mk ['a', Windows.QUOTE]] ∧
    Windows.split_command_line
        (Windows.run_cmdline
          ["prog", String.mk ['c', Windows.BACKSLASH, Windows.QUOTE, 'd']]) =
      ["prog", String.mk ['c', Windows.BACKSLASH, 'd']] ∧
    (Windows.build_command_line true ["prog", String.mk ['a', Windows.BACKSLASH]]).map
        Windows.split_command_line =
      some ["prog", String.mk ['a', Windows.BACKSLASH]] ∧
    (Windows.build_command_line true
        ["prog", String.mk ['c', Windows.BACKSLASH, Windows.QUOTE, 'd']]).map
        Windows.split_command_line =
      some ["prog", String.mk ['c', Windows.BACKSLASH, Windows.QUOTE, 'd']] := by
  decide

/-! ### C17: build_command_line stays inside its buffer -/

/-- Claim C17: for every non-empty argv the number of bytes that the second pass
of `build_command_line` writes, the terminating NUL in the place of the last
separator included, is at most the `len` that the first pass computed and passed
to `malloc`. -/
theorem build_command_line_stays_in_buffer (argv : List String) (h : argv ≠ []) :
    Windows.bytes_written argv ≤ Windows.length_pass argv := by
  have hb := Windows.length_pass_bound argv 0
  have hpos : 1 ≤ (Windows.write_pass argv).length := by
    cases argv with
    | nil => exact absurd rfl h
    | cons arg argv =>
      simp [Windows.write_pass, Windows.write_arg]
      omega
  simp only [Windows.bytes_written, Windows.length_pass]
  omega

/-- Witness for `build_command_line_stays_in_buffer`: the argv of the round-trip
witness; the second pass writes 25 bytes and the first pass asked for 27. -/
theorem build_command_line_stays_in_buffer_witness :
    Windows.bytes_written
        [String.mk ['C', ':', Windows.BACKSLASH, 'a', Windows.SPACE, 'b'], "",
          String.mk [Windows.BACKSLASH, Windows.BACKSLASH, Windows.QUOTE, 'x', Windows.SPACE,
            Windows.BACKSLASH]] = 25 ∧
    Windows.length_pass
        [String.mk ['C', ':', Windows.BACKSLASH, 'a', Windows.SPACE, 'b'], "",
          String.mk [Windows.BACKSLASH, Windows.BACKSLASH, Windows.QUOTE, 'x', Windows.SPACE,
            Windows.BACKSLASH]] = 27 ∧
    Windows.bytes_written
        [String.mk ['C', ':', Windows.BACKSLASH, 'a', Windows.SPACE, 'b'], "",
          String.mk [Windows.BACKSLASH, Windows.BACKSLASH, Windows.QUOTE, 'x', Windows.SPACE,
            Windows.BACKSLASH]] ≤
      Windows.length_pass
        [String.mk ['C', ':', Windows.BACKSLASH, 'a', Windows.SPACE, 'b'], "",
          String.mk [Windows.BACKSLASH, Windows.BACKSLASH, Windows.QUOTE, 'x', Windows.SPACE,
            Windows.BACKSLASH]] :=
  ⟨by decide, by decide,
    build_command_line_stays_in_buffer
      [String.mk ['C', ':', Windows.BACKSLASH, 'a', Windows.SPACE, 'b'], "",
        String.mk [Windows.BACKSLASH, Windows.BACKSLASH, Windows.QUOTE, 'x', Windows.SPACE,
          Windows.BACKSLASH]] (by simp)⟩

/-! ### C14: a failure of Upgrade after the install step -/

theorem lookup_cons_filter {β : Type} (l : List (String × β)) (k : String) (v : β)
    (p : String → Bool) (x : String) :
    ((k, v) :: l.filter (fun e => p e.1)).lookup x =
      if x = k then some v else if p x then l.lookup x else none := by
  by_cases hx : x = k
  · subst hx; simp [List.lookup_cons]
  · have hb : (x == k) = false := by simpa using hx
    rw [List.lookup_cons, hb, if_neg hx]
    simp only []
    induction l with
    | nil => simp
    | cons e l ih =>
      obtain ⟨k', v'⟩ := e
      by_cases hp : p k' = true
      · rw [List.filter_cons_of_pos (by simpa using hp)]
        by_cases hk : x = k'
        · subst hk; simp [List.lookup_cons, hp]
        · have hb' : (x == k') = false := by simpa using hk
          simp only [List.lookup_cons, hb', ih]
      · rw [List.filter_cons_of_neg (by simpa using hp)]
        by_cases hk : x = k'
        · subst hk
          have hp' : p x = false := by simpa using hp
          rw [ih]
          simp [hp', List.lookup_cons]
        · have hb' : (x == k') = false := by simpa using hk
          simp only [List.lookup_cons, hb', ih]

namespace Unix

theorem sys_stat_rename (a : agent) (old new : String) (f : file_t)
    (h : sys_stat a old = some f) (x : String) :
    (sys_rename true a old new).1 = 0 ∧
    sys_stat (sys_rename true a old new).2 x =
      if x = new then some f else if x = old then none else sys_stat a x := by
  unfold sys_stat at h
  simp only [sys_rename, h, if_true, sys_stat, true_and]
  rw [lookup_cons_filter a.files new f (fun k => decide (k ≠ old ∧ k ≠ new)) x]
  by_cases h1 : x = new
  · simp [h1]
  · by_cases h2 : x = old
    · simp [h1, h2]
    · simp [h1, h2]

theorem sys_rename_refused (a : agent) (old new : String) :
    sys_rename false a old new = (-1, a) := by
  unfold sys_rename
  split <;> simp

theorem sys_rename_status (ok : Bool) (a : agent) (old new : String) :
    (sys_rename ok a old new).2.status = a.status := by
  unfold sys_rename
  split
  · rfl
  · split <;> rfl

theorem sys_pipe_files (ok : Bool) (a : agent) :
    (sys_pipe ok a).2.2.2.files = a.files := by
  unfold sys_pipe
  split <;> rfl

theorem sys_stat_files {a b : agent} (h : b.files = a.files) (x : String) :
    sys_stat b x = sys_stat a x := by
  unfold sys_stat
  rw [h]

theorem upgrade_spawn_failure (env : upgrade_env) (current_argv0 : String)
    (argv : List String) (o : String) (a : agent)
    (hfail : env.pipe_ok = false ∨ env.fork < 0) :
    ∃ b, b.files = a.files ∧ b.status = status_t.ST_ERROR ∧
      upgrade_spawn env current_argv0 argv (some o) a =
        some (0, (sys_rename (env.rename_ok o current_argv0) b o current_argv0).2) := by
  unfold upgrade_spawn
  by_cases hp : env.pipe_ok = false
  · refine ⟨set_status a status_t.ST_ERROR
      ("could not synchronize with the new process: " ++ env.strerror), rfl, rfl, ?_⟩
    simp [sys_pipe, hp, restore_oldserver]
  · have hp' : env.pipe_ok = true := by simpa using hp
    have hf : env.fork < 0 := by
      rcases hfail with h | h
      · exact absurd h hp
      · exact h
    refine ⟨sys_close (sys_close
        (set_status (sys_pipe env.pipe_ok a).2.2.2 status_t.ST_ERROR
          ("unable to start the new server: " ++ env.strerror))
        (sys_pipe env.pipe_ok a).2.1) (sys_pipe env.pipe_ok a).2.2.1, ?_, rfl, ?_⟩
    · exact sys_pipe_files _ _
    · have h1 : (sys_pipe env.pipe_ok a).1 = 0 := by simp [sys_pipe, hp']
      simp only [h1, ne_eq, not_true_eq_false, if_false, hf, if_true, restore_oldserver]

theorem upgrade_rolls_back (env : upgrade_env) (current_argv0 : String) (argc : Nat)
    (argv : List String) (a : agent) (f0 f1 : file_t)
    (hs0 : sys_stat a current_argv0 = some f0)
    (hs1 : sys_stat a (argv.getD 0 "") = some f1)
    (hd : f0.st_dev ≠ f1.st_dev ∨ f0.st_ino ≠ f1.st_ino)
    (hcO : current_argv0 ≠ OLDSERVER) (hnO : argv.getD 0 "" ≠ OLDSERVER)
    (hr1 : env.rename_ok current_argv0 OLDSERVER = true)
    (hr2 : env.rename_ok (argv.getD 0 "") current_argv0 = true)
    (hfail : env.pipe_ok = false ∨ env.fork < 0) :
    ∃ a', platform_upgrade env current_argv0 argc argv a = some (0, a') ∧
      a'.status = status_t.ST_ERROR ∧
      (env.rename_ok OLDSERVER current_argv0 = true →
        sys_stat a' current_argv0 = some f0 ∧ sys_stat a' OLDSERVER = none ∧
        sys_stat a' (argv.getD 0 "") = none) ∧
      (env.rename_ok OLDSERVER current_argv0 = false →
        sys_stat a' current_argv0 = some f1 ∧ sys_stat a' OLDSERVER = some f0 ∧
        sys_stat a' (argv.getD 0 "") = none) := by
  have hnc : argv.getD 0 "" ≠ current_argv0 := by
    intro h
    rw [h, hs0] at hs1
    simp only [Option.some.injEq] at hs1
    subst hs1
    exact hd.elim (fun h => h rfl) (fun h => h rfl)
  -- the backup rename
  obtain ⟨e1, g1⟩ := And.intro (sys_stat_rename _ _ OLDSERVER _ hs0 current_argv0).1
    (fun x => (sys_stat_rename _ _ OLDSERVER _ hs0 x).2)
  have hs1' : sys_stat (sys_rename true a current_argv0 OLDSERVER).2 (argv.getD 0 "") = some f1 := by
    rw [g1, if_neg hnO, if_neg hnc, hs1]
  -- the install rename
  have e2 := (sys_stat_rename _ _ current_argv0 _ hs1' current_argv0).1
  have g2 := fun x => (sys_stat_rename _ _ current_argv0 _ hs1' x).2
  have hO2 : sys_stat (sys_rename true (sys_rename true a current_argv0 OLDSERVER).2
      (argv.getD 0 "") current_argv0).2 OLDSERVER = some f0 := by
    rw [g2, if_neg hcO.symm, if_neg hnO.symm, g1, if_pos rfl]
  obtain ⟨b, hbf, hbs, hb⟩ := upgrade_spawn_failure env current_argv0 argv OLDSERVER
    (sys_rename true (sys_rename true a current_argv0 OLDSERVER).2
      (argv.getD 0 "") current_argv0).2 hfail
  have hOb : sys_stat b OLDSERVER = some f0 := by rw [sys_stat_files hbf, hO2]
  refine ⟨(sys_rename (env.rename_ok OLDSERVER current_argv0) b OLDSERVER current_argv0).2,
    ?_, ?_, ?_, ?_⟩
  · unfold platform_upgrade
    simp only [hs0, hs1, hd, if_true, hr1, hr2, e1, e2, ne_eq, not_true_eq_false, if_false]
    exact hb
  · rw [sys_rename_status, hbs]
  · intro hok
    rw [hok]
    have g3 := fun x => (sys_stat_rename _ _ current_argv0 _ hOb x).2
    refine ⟨?_, ?_, ?_⟩
    · rw [g3, if_pos rfl]
    · rw [g3, if_neg hcO.symm, if_pos rfl]
    · rw [g3, if_neg hnc, if_neg hnO, sys_stat_files hbf, g2, if_neg hnc, if_pos rfl]
  · intro hno
    rw [hno, sys_rename_refused]
    refine ⟨?_, hOb, ?_⟩
    · rw [sys_stat_files hbf, g2, if_pos rfl]
    · rw [sys_stat_files hbf, g2, if_neg hnc, if_pos rfl]

end Unix

namespace Windows

theorem win_move_file_done (a : agent) (existing new : String) (f : List Nat)
    (h1 : a.files.lookup existing = some f) (h2 : a.files.lookup new = none) (x : String) :
    (move_file true a existing new).1 = true ∧
    (move_file true a existing new).2.files.lookup x =
      if x = new then some f else if x = existing then none else a.files.lookup x := by
  simp only [move_file, h1, h2, if_true, true_and]
  rw [lookup_cons_filter a.files new f (fun k => decide (k ≠ existing)) x]
  by_cases hx : x = new
  · simp [hx]
  · by_cases hy : x = existing
    · simp [hx, hy]
    · simp [hx, hy]

theorem win_move_file_taken (ok : Bool) (a : agent) (existing new : String) (g : List Nat)
    (h : a.files.lookup new = some g) : move_file ok a existing new = (false, a) := by
  unfold move_file
  rw [h]
  split
  · rename_i h3 h4; simp at h4
  · rfl

theorem win_upgrade_spawn_failure (env : upgrade_env) (t o : String) (argv : List String)
    (a : agent) (g : List Nat) (ht : a.files.lookup t = some g)
    (hfail : env.malloc_ok = false ∨ ∀ cmdline, env.create_process_ok t cmdline = false) :
    ∃ b, b.files = a.files ∧ b.status = status_t.ST_ERROR ∧
      upgrade_spawn env t argv (some o) a = (0, b) := by
  unfold upgrade_spawn
  cases hb : build_command_line env.malloc_ok (argv.set 0 t) with
  | none =>
    refine ⟨set_status a status_t.ST_ERROR "unable to build the new command line", rfl, rfl, ?_⟩
    simp only [restore_oldtestagentd]
    rw [win_move_file_taken _ _ _ _ g (by exact ht)]
  | some cmdline =>
    have hm : env.malloc_ok = true := by
      cases hmo : env.malloc_ok with
      | true => rfl
      | false => simp [build_command_line, hmo] at hb
    have hc : env.create_process_ok t cmdline = false := by
      rcases hfail with h | h
      · rw [hm] at h; simp at h
      · exact h cmdline
    refine ⟨set_status a status_t.ST_ERROR
      ("could not run '" ++ cmdline ++ "': " ++ toString env.last_error), rfl, rfl, ?_⟩
    simp only [hc, Bool.false_eq_true, if_false, restore_oldtestagentd]
    rw [win_move_file_taken _ _ _ _ g (by exact ht)]

theorem win_upgrade_keeps_install (env : upgrade_env) (current_argv0 : String) (argc : Nat)
    (argv : List String) (a : agent) (t full o : String) (f0 f1 : List Nat)
    (ht : get_server_filename env false = some t)
    (hfull : env.full_path (argv.getD 0 "") = some full) (hne : t ≠ full)
    (ho : get_server_filename env true = some o)
    (hl0 : a.files.lookup t = some f0) (hlo : a.files.lookup o = none)
    (hl1 : a.files.lookup (argv.getD 0 "") = some f1) (hnt : argv.getD 0 "" ≠ t)
    (hm1 : env.move_ok t o = true) (hm2 : env.move_ok (argv.getD 0 "") t = true)
    (hfail : env.malloc_ok = false ∨ ∀ cmdline, env.create_process_ok t cmdline = false) :
    ∃ a', platform_upgrade env current_argv0 argc argv a = (0, a') ∧
      a'.status = status_t.ST_ERROR ∧
      a'.files.lookup t = some f1 ∧ a'.files.lookup o = some f0 ∧
      a'.files.lookup (argv.getD 0 "") = none := by
  have hto : t ≠ o := by
    intro h; rw [h, hlo] at hl0; simp at hl0
  have hno : argv.getD 0 "" ≠ o := by
    intro h; rw [h, hlo] at hl1; simp at hl1
  have e1 := (win_move_file_done a t o f0 hl0 hlo t).1
  have g1 := fun x => (win_move_file_done a t o f0 hl0 hlo x).2
  have hn1 : (move_file true a t o).2.files.lookup (argv.getD 0 "") = some f1 := by
    rw [g1, if_neg hno, if_neg hnt, hl1]
  have ht1 : (move_file true a t o).2.files.lookup t = none := by
    rw [g1, if_neg hto, if_pos rfl]
  have e2 := (win_move_file_done _ (argv.getD 0 "") t f1 hn1 ht1 t).1
  have g2 := fun x => (win_move_file_done _ (argv.getD 0 "") t f1 hn1 ht1 x).2
  have ht2 : (move_file true (move_file true a t o).2 (argv.getD 0 "") t).2.files.lookup t
      = some f1 := by rw [g2, if_pos rfl]
  obtain ⟨b, hbf, hbs, hb⟩ := win_upgrade_spawn_failure env t o argv _ f1 ht2 hfail
  refine ⟨b, ?_, hbs, ?_, ?_, ?_⟩
  · unfold platform_upgrade
    simp only [ht, hfull, ho, hm1, hm2, e1, e2, ne_eq, hne, not_false_eq_true, if_true,
      Bool.true_eq_false, if_false]
    exact hb
  · rw [hbf, ht2]
  · rw [hbf, g2, if_neg hto.symm, if_neg hno.symm, g1, if_pos rfl]
  · rw [hbf, g2, if_neg hnt, if_pos rfl]

end Windows

/-- Claim C14 (counterexample): the backup and the install rename went through,
so the current executable's path holds the new build (inode 11) and the backup
name the original (inode 10).  Then `pipe` fails, or `fork` fails.  In both runs
`platform_upgrade` returns 0 with the error and has renamed the backup back over
the current executable's path: that path holds the original again, the backup
name is free, and the new build is on neither path, where the claim promises the
state right after the install step. -/
theorem unix_upgrade_rolls_back_after_install :
    Unix.sys_stat
        (Unix.sys_rename true
          (Unix.sys_rename true Unix.two_servers "testagentd" Unix.OLDSERVER).2
          "new/testagentd" "testagentd").2 "testagentd" = some ⟨1, 11, [2]⟩ ∧
    (Unix.platform_upgrade Unix.pipe_fails "testagentd" 1 ["new/testagentd"]
        Unix.two_servers).map (fun r => (r.1, r.2.status)) = some (0, status_t.ST_ERROR) ∧
    (Unix.platform_upgrade Unix.pipe_fails "testagentd" 1 ["new/testagentd"]
        Unix.two_servers).map
      (fun r => (Unix.sys_stat r.2 "testagentd", Unix.sys_stat r.2 Unix.OLDSERVER,
        Unix.sys_stat r.2 "new/testagentd"))
      = some (some ⟨1, 10, [1]⟩, none, none) ∧
    (Unix.platform_upgrade Unix.fork_fails "testagentd" 1 ["new/testagentd"]
        Unix.two_servers).map (fun r => (r.1, r.2.status)) = some (0, status_t.ST_ERROR) ∧
    (Unix.platform_upgrade Unix.fork_fails "testagentd" 1 ["new/testagentd"]
        Unix.two_servers).map
      (fun r => (Unix.sys_stat r.2 "testagentd", Unix.sys_stat r.2 Unix.OLDSERVER,
        Unix.sys_stat r.2 "new/testagentd"))
      = some (some ⟨1, 10, [1]⟩, none, none) := by
  decide

/-- Claim C14 (amended): for every Upgrade call in which the backup and the
install rename succeeded and a later step fails, Upgrade returns 0 with the error
recorded and tries to roll back by renaming the backup to the current
executable's path.  On Unix (the paths are different files, none of them is the
backup name, `pipe` or `fork` fails): when the system lets that rename through,
the current executable's path holds the original again, the backup name is free
and the new executable's path stays empty; when it refuses, the state is the one
right after the install step.  On Windows (building the command line or
`CreateProcessA` fails): `MoveFile` does not replace the installed file, so the
state stays the one right after the install step, the new executable at the
current executable's path and the original under the backup name. -/
theorem upgrade_late_failure_attempts_rollback :
    (∀ (env : Unix.upgrade_env) (current_argv0 : String) (argc : Nat) (argv : List String)
        (a : Unix.agent) (f0 f1 : Unix.file_t),
      Unix.sys_stat a current_argv0 = some f0 →
      Unix.sys_stat a (argv.getD 0 "") = some f1 →
      (f0.st_dev ≠ f1.st_dev ∨ f0.st_ino ≠ f1.st_ino) →
      current_argv0 ≠ Unix.OLDSERVER → argv.getD 0 "" ≠ Unix.OLDSERVER →
      env.rename_ok current_argv0 Unix.OLDSERVER = true →
      env.rename_ok (argv.getD 0 "") current_argv0 = true →
      (env.pipe_ok = false ∨ env.fork < 0) →
      ∃ a', Unix.platform_upgrade env current_argv0 argc argv a = some (0, a') ∧
        a'.status = status_t.ST_ERROR ∧
        (env.rename_ok Unix.OLDSERVER current_argv0 = true →
          Unix.sys_stat a' current_argv0 = some f0 ∧ Unix.sys_stat a' Unix.OLDSERVER = none ∧
          Unix.sys_stat a' (argv.getD 0 "") = none) ∧
        (env.rename_ok Unix.OLDSERVER current_argv0 = false →
          Unix.sys_stat a' current_argv0 = some f1 ∧
          Unix.sys_stat a' Unix.OLDSERVER = some f0 ∧
          Unix.sys_stat a' (argv.getD 0 "") = none)) ∧
    (∀ (env : Windows.upgrade_env) (current_argv0 : String) (argc : Nat)
        (argv : List String) (a : Windows.agent) (t full o : String) (f0 f1 : List Nat),
      Windows.get_server_filename env false = some t →
      env.full_path (argv.getD 0 "") = some full → t ≠ full →
      Windows.get_server_filename env true = some o →
      a.files.lookup t = some f0 → a.files.lookup o = none →
      a.files.lookup (argv.getD 0 "") = some f1 → argv.getD 0 "" ≠ t →
      env.move_ok t o = true → env.move_ok (argv.getD 0 "") t = true →
      (env.malloc_ok = false ∨ ∀ cmdline, env.create_process_ok t cmdline = false) →
      ∃ a', Windows.platform_upgrade env current_argv0 argc argv a = (0, a') ∧
        a'.status = status_t.ST_ERROR ∧
        a'.files.lookup t = some f1 ∧ a'.files.lookup o = some f0 ∧
        a'.files.lookup (argv.getD 0 "") = none) :=
  ⟨fun env current_argv0 argc argv a f0 f1 hs0 hs1 hd hcO hnO hr1 hr2 hfail =>
      Unix.upgrade_rolls_back env current_argv0 argc argv a f0 f1 hs0 hs1 hd hcO hnO hr1 hr2
        hfail,
    fun env current_argv0 argc argv a t full o f0 f1 ht hfull hne ho hl0 hlo hl1 hnt hm1 hm2
        hfail =>
      Windows.win_upgrade_keeps_install env current_argv0 argc argv a t full o f0 f1 ht hfull
        hne ho hl0 hlo hl1 hnt hm1 hm2 hfail⟩

/-- Witness for `upgrade_late_failure_attempts_rollback`: the Unix run with the
failing `pipe` and the Windows run with the failing `CreateProcessA`. -/
theorem upgrade_late_failure_attempts_rollback_witness :
    (∃ a', Unix.platform_upgrade Unix.pipe_fails "testagentd" 1 ["new/testagentd"]
        Unix.two_servers = some (0, a') ∧
      a'.status = status_t.ST_ERROR ∧
      (Unix.pipe_fails.rename_ok Unix.OLDSERVER "testagentd" = true →
        Unix.sys_stat a' "testagentd" = some ⟨1, 10, [1]⟩ ∧
        Unix.sys_stat a' Unix.OLDSERVER = none ∧
        Unix.sys_stat a' "new/testagentd" = none) ∧
      (Unix.pipe_fails.rename_ok Unix.OLDSERVER "testagentd" = false →
        Unix.sys_stat a' "testagentd" = some ⟨1, 11, [2]⟩ ∧
        Unix.sys_stat a' Unix.OLDSERVER = some ⟨1, 10, [1]⟩ ∧
        Unix.sys_stat a' "new/testagentd" = none)) ∧
    (∃ a', Windows.platform_upgrade Windows.spawn_refused "testagentd.exe" 1
        ["C:/new/testagentd.exe"] Windows.two_servers = (0, a') ∧
      a'.status = status_t.ST_ERROR ∧
      a'.files.lookup "C:/agent/testagentd.exe" = some [2] ∧
      a'.files.lookup "C:/agent/testagentd.exe.old" = some [1] ∧
      a'.files.lookup "C:/new/testagentd.exe" = none) :=
  ⟨upgrade_late_failure_attempts_rollback.1 Unix.pipe_fails "testagentd" 1 ["new/testagentd"]
      Unix.two_servers ⟨1, 10, [1]⟩ ⟨1, 11, [2]⟩ (by decide) (by decide) (by decide)
      (by decide) (by decide) (by decide) (by decide) (by decide),
    upgrade_late_failure_attempts_rollback.2 Windows.spawn_refused "testagentd.exe" 1
      ["C:/new/testagentd.exe"] Windows.two_servers "C:/agent/testagentd.exe"
      "C:/new/testagentd.exe" "C:/agent/testagentd.exe.old" [1] [2] (by decide) (by decide)
      (by decide) (by decide) (by decide) (by decide) (by decide) (by decide) (by decide)
      (by decide) (Or.inr (fun _ => rfl))⟩

end TestAgentd
